import Mathlib

/-!
# Initia airdrop checker (`check.js`): embedding and verified properties

A shallow embedding of `check.js`: the address normaliser `transformAddress`,
the query classifier `checkAirdrop`, the amount conversion `formatAmount` and
the batch loop `main`, followed by the properties proved about them.

Conventions of the embedding.

* Strings are sequences of Unicode scalar values (what the UTF-8 decoding of the
  input file yields); `toLowerCase` is the Unicode default case conversion, with
  the case data of Unicode 14.0 embedded as tables.
* A JavaScript Number is a binary64 value, kept exactly: a finite value is a
  sign and a natural multiple of `2^-1074`, and every arithmetic result is
  rounded to nearest, ties to even.
* The transport (`RequestManager`, from `../http.js`) and the CSV reader are not
  part of `check.js`; they are the parameters `Env` and the input of `main`.
* A value thrown by the transport is an error object, described by the four
  properties `check.js` reads from it; response bodies are JSON values.
* Console output and the duration of the pacing delay are not embedded; the
  order of the transport calls and of the final `writeCSV` is kept as a list of
  effects.
-/

namespace Initia

/-! ## Unicode case data

The locale-insensitive case data that `String.prototype.toLowerCase` uses, from
the Unicode Character Database, version 14.0: the simple lowercase mappings of
`UnicodeData.txt`, and the properties `Cased` and `Case_Ignorable` of
`DerivedCoreProperties.txt` (read by the `Final_Sigma` rule of
`SpecialCasing.txt`). A set of code points is a list of ranges
`(first, last, step)`; a mapping adds the image of `first`. -/

/-- Membership of a code point in a range `first .. last` taken every `step`. -/
def inRange (n first last step : Nat) : Bool :=
  first ≤ n && n ≤ last && (n - first) % step == 0

/-- Membership of a code point in a set given by ranges. -/
def inRanges (ranges : List (Nat × Nat × Nat)) (n : Nat) : Bool :=
  ranges.any (fun r => inRange n r.1 r.2.1 r.2.2)

/-- The simple lowercase mappings: `(first, last, step, image of first)`; the
image of a member `n` is `image of first + (n - first)`. -/
def lowercaseRanges : List (Nat × Nat × Nat × Nat) :=
  [(0x41, 0x5A, 1, 0x61), (0xC0, 0xD6, 1, 0xE0), (0xD8, 0xDE, 1, 0xF8),
   (0x100, 0x12E, 2, 0x101), (0x130, 0x130, 1, 0x69), (0x132, 0x136, 2, 0x133),
   (0x139, 0x147, 2, 0x13A), (0x14A, 0x176, 2, 0x14B), (0x178, 0x178, 1, 0xFF),
   (0x179, 0x17D, 2, 0x17A), (0x181, 0x181, 1, 0x253), (0x182, 0x184, 2, 0x183),
   (0x186, 0x186, 1, 0x254), (0x187, 0x187, 1, 0x188), (0x189, 0x18A, 1, 0x256),
   (0x18B, 0x18B, 1, 0x18C), (0x18E, 0x18E, 1, 0x1DD), (0x18F, 0x18F, 1, 0x259),
   (0x190, 0x190, 1, 0x25B), (0x191, 0x191, 1, 0x192), (0x193, 0x193, 1, 0x260),
   (0x194, 0x194, 1, 0x263), (0x196, 0x196, 1, 0x269), (0x197, 0x197, 1, 0x268),
   (0x198, 0x198, 1, 0x199), (0x19C, 0x19C, 1, 0x26F), (0x19D, 0x19D, 1, 0x272),
   (0x19F, 0x19F, 1, 0x275), (0x1A0, 0x1A4, 2, 0x1A1), (0x1A6, 0x1A6, 1, 0x280),
   (0x1A7, 0x1A7, 1, 0x1A8), (0x1A9, 0x1A9, 1, 0x283), (0x1AC, 0x1AC, 1, 0x1AD),
   (0x1AE, 0x1AE, 1, 0x288), (0x1AF, 0x1AF, 1, 0x1B0), (0x1B1, 0x1B2, 1, 0x28A),
   (0x1B3, 0x1B5, 2, 0x1B4), (0x1B7, 0x1B7, 1, 0x292), (0x1B8, 0x1B8, 1, 0x1B9),
   (0x1BC, 0x1BC, 1, 0x1BD), (0x1C4, 0x1C4, 1, 0x1C6), (0x1C5, 0x1C5, 1, 0x1C6),
   (0x1C7, 0x1C7, 1, 0x1C9), (0x1C8, 0x1C8, 1, 0x1C9), (0x1CA, 0x1CA, 1, 0x1CC),
   (0x1CB, 0x1DB, 2, 0x1CC), (0x1DE, 0x1EE, 2, 0x1DF), (0x1F1, 0x1F1, 1, 0x1F3),
   (0x1F2, 0x1F4, 2, 0x1F3), (0x1F6, 0x1F6, 1, 0x195), (0x1F7, 0x1F7, 1, 0x1BF),
   (0x1F8, 0x21E, 2, 0x1F9), (0x220, 0x220, 1, 0x19E), (0x222, 0x232, 2, 0x223),
   (0x23A, 0x23A, 1, 0x2C65), (0x23B, 0x23B, 1, 0x23C), (0x23D, 0x23D, 1, 0x19A),
   (0x23E, 0x23E, 1, 0x2C66), (0x241, 0x241, 1, 0x242), (0x243, 0x243, 1, 0x180),
   (0x244, 0x244, 1, 0x289), (0x245, 0x245, 1, 0x28C), (0x246, 0x24E, 2, 0x247),
   (0x370, 0x372, 2, 0x371), (0x376, 0x376, 1, 0x377), (0x37F, 0x37F, 1, 0x3F3),
   (0x386, 0x386, 1, 0x3AC), (0x388, 0x38A, 1, 0x3AD), (0x38C, 0x38C, 1, 0x3CC),
   (0x38E, 0x38F, 1, 0x3CD), (0x391, 0x3A1, 1, 0x3B1), (0x3A3, 0x3AB, 1, 0x3C3),
   (0x3CF, 0x3CF, 1, 0x3D7), (0x3D8, 0x3EE, 2, 0x3D9), (0x3F4, 0x3F4, 1, 0x3B8),
   (0x3F7, 0x3F7, 1, 0x3F8), (0x3F9, 0x3F9, 1, 0x3F2), (0x3FA, 0x3FA, 1, 0x3FB),
   (0x3FD, 0x3FF, 1, 0x37B), (0x400, 0x40F, 1, 0x450), (0x410, 0x42F, 1, 0x430),
   (0x460, 0x480, 2, 0x461), (0x48A, 0x4BE, 2, 0x48B), (0x4C0, 0x4C0, 1, 0x4CF),
   (0x4C1, 0x4CD, 2, 0x4C2), (0x4D0, 0x52E, 2, 0x4D1), (0x531, 0x556, 1, 0x561),
   (0x10A0, 0x10C5, 1, 0x2D00), (0x10C7, 0x10C7, 1, 0x2D27), (0x10CD, 0x10CD, 1, 0x2D2D),
   (0x13A0, 0x13EF, 1, 0xAB70), (0x13F0, 0x13F5, 1, 0x13F8), (0x1C90, 0x1CBA, 1, 0x10D0),
   (0x1CBD, 0x1CBF, 1, 0x10FD), (0x1E00, 0x1E94, 2, 0x1E01), (0x1E9E, 0x1E9E, 1, 0xDF),
   (0x1EA0, 0x1EFE, 2, 0x1EA1), (0x1F08, 0x1F0F, 1, 0x1F00), (0x1F18, 0x1F1D, 1, 0x1F10),
   (0x1F28, 0x1F2F, 1, 0x1F20), (0x1F38, 0x1F3F, 1, 0x1F30), (0x1F48, 0x1F4D, 1, 0x1F40),
   (0x1F59, 0x1F5F, 2, 0x1F51), (0x1F68, 0x1F6F, 1, 0x1F60), (0x1F88, 0x1F8F, 1, 0x1F80),
   (0x1F98, 0x1F9F, 1, 0x1F90), (0x1FA8, 0x1FAF, 1, 0x1FA0), (0x1FB8, 0x1FB9, 1, 0x1FB0),
   (0x1FBA, 0x1FBB, 1, 0x1F70), (0x1FBC, 0x1FBC, 1, 0x1FB3), (0x1FC8, 0x1FCB, 1, 0x1F72),
   (0x1FCC, 0x1FCC, 1, 0x1FC3), (0x1FD8, 0x1FD9, 1, 0x1FD0), (0x1FDA, 0x1FDB, 1, 0x1F76),
   (0x1FE8, 0x1FE9, 1, 0x1FE0), (0x1FEA, 0x1FEB, 1, 0x1F7A), (0x1FEC, 0x1FEC, 1, 0x1FE5),
   (0x1FF8, 0x1FF9, 1, 0x1F78), (0x1FFA, 0x1FFB, 1, 0x1F7C), (0x1FFC, 0x1FFC, 1, 0x1FF3),
   (0x2126, 0x2126, 1, 0x3C9), (0x212A, 0x212A, 1, 0x6B), (0x212B, 0x212B, 1, 0xE5),
   (0x2132, 0x2132, 1, 0x214E), (0x2160, 0x216F, 1, 0x2170), (0x2183, 0x2183, 1, 0x2184),
   (0x24B6, 0x24CF, 1, 0x24D0), (0x2C00, 0x2C2F, 1, 0x2C30), (0x2C60, 0x2C60, 1, 0x2C61),
   (0x2C62, 0x2C62, 1, 0x26B), (0x2C63, 0x2C63, 1, 0x1D7D), (0x2C64, 0x2C64, 1, 0x27D),
   (0x2C67, 0x2C6B, 2, 0x2C68), (0x2C6D, 0x2C6D, 1, 0x251), (0x2C6E, 0x2C6E, 1, 0x271),
   (0x2C6F, 0x2C6F, 1, 0x250), (0x2C70, 0x2C70, 1, 0x252), (0x2C72, 0x2C72, 1, 0x2C73),
   (0x2C75, 0x2C75, 1, 0x2C76), (0x2C7E, 0x2C7F, 1, 0x23F), (0x2C80, 0x2CE2, 2, 0x2C81),
   (0x2CEB, 0x2CED, 2, 0x2CEC), (0x2CF2, 0x2CF2, 1, 0x2CF3), (0xA640, 0xA66C, 2, 0xA641),
   (0xA680, 0xA69A, 2, 0xA681), (0xA722, 0xA72E, 2, 0xA723), (0xA732, 0xA76E, 2, 0xA733),
   (0xA779, 0xA77B, 2, 0xA77A), (0xA77D, 0xA77D, 1, 0x1D79), (0xA77E, 0xA786, 2, 0xA77F),
   (0xA78B, 0xA78B, 1, 0xA78C), (0xA78D, 0xA78D, 1, 0x265), (0xA790, 0xA792, 2, 0xA791),
   (0xA796, 0xA7A8, 2, 0xA797), (0xA7AA, 0xA7AA, 1, 0x266), (0xA7AB, 0xA7AB, 1, 0x25C),
   (0xA7AC, 0xA7AC, 1, 0x261), (0xA7AD, 0xA7AD, 1, 0x26C), (0xA7AE, 0xA7AE, 1, 0x26A),
   (0xA7B0, 0xA7B0, 1, 0x29E), (0xA7B1, 0xA7B1, 1, 0x287), (0xA7B2, 0xA7B2, 1, 0x29D),
   (0xA7B3, 0xA7B3, 1, 0xAB53), (0xA7B4, 0xA7C2, 2, 0xA7B5), (0xA7C4, 0xA7C4, 1, 0xA794),
   (0xA7C5, 0xA7C5, 1, 0x282), (0xA7C6, 0xA7C6, 1, 0x1D8E), (0xA7C7, 0xA7C9, 2, 0xA7C8),
   (0xA7D0, 0xA7D0, 1, 0xA7D1), (0xA7D6, 0xA7D8, 2, 0xA7D7), (0xA7F5, 0xA7F5, 1, 0xA7F6),
   (0xFF21, 0xFF3A, 1, 0xFF41), (0x10400, 0x10427, 1, 0x10428), (0x104B0, 0x104D3, 1, 0x104D8),
   (0x10570, 0x1057A, 1, 0x10597), (0x1057C, 0x1058A, 1, 0x105A3), (0x1058C, 0x10592, 1, 0x105B3),
   (0x10594, 0x10595, 1, 0x105BB), (0x10C80, 0x10CB2, 1, 0x10CC0), (0x118A0, 0x118BF, 1, 0x118C0),
   (0x16E40, 0x16E5F, 1, 0x16E60), (0x1E900, 0x1E921, 1, 0x1E922)]

/-- The code points with the property `Cased`. -/
def casedRanges : List (Nat × Nat × Nat) :=
  [(0x41, 0x5A, 1), (0x61, 0x7A, 1), (0xAA, 0xAA, 1), (0xB5, 0xB5, 1),
   (0xBA, 0xBA, 1), (0xC0, 0xD6, 1), (0xD8, 0xF6, 1), (0xF8, 0x1BA, 1),
   (0x1BC, 0x1BF, 1), (0x1C4, 0x293, 1), (0x295, 0x2B8, 1), (0x2C0, 0x2C1, 1),
   (0x2E0, 0x2E4, 1), (0x345, 0x345, 1), (0x370, 0x373, 1), (0x376, 0x377, 1),
   (0x37A, 0x37D, 1), (0x37F, 0x37F, 1), (0x386, 0x388, 2), (0x389, 0x38A, 1),
   (0x38C, 0x38E, 2), (0x38F, 0x3A1, 1), (0x3A3, 0x3F5, 1), (0x3F7, 0x481, 1),
   (0x48A, 0x52F, 1), (0x531, 0x556, 1), (0x560, 0x588, 1), (0x10A0, 0x10C5, 1),
   (0x10C7, 0x10C7, 1), (0x10CD, 0x10CD, 1), (0x10D0, 0x10FA, 1), (0x10FD, 0x10FF, 1),
   (0x13A0, 0x13F5, 1), (0x13F8, 0x13FD, 1), (0x1C80, 0x1C88, 1), (0x1C90, 0x1CBA, 1),
   (0x1CBD, 0x1CBF, 1), (0x1D00, 0x1DBF, 1), (0x1E00, 0x1F15, 1), (0x1F18, 0x1F1D, 1),
   (0x1F20, 0x1F45, 1), (0x1F48, 0x1F4D, 1), (0x1F50, 0x1F57, 1), (0x1F59, 0x1F5F, 2),
   (0x1F60, 0x1F7D, 1), (0x1F80, 0x1FB4, 1), (0x1FB6, 0x1FBC, 1), (0x1FBE, 0x1FBE, 1),
   (0x1FC2, 0x1FC4, 1), (0x1FC6, 0x1FCC, 1), (0x1FD0, 0x1FD3, 1), (0x1FD6, 0x1FDB, 1),
   (0x1FE0, 0x1FEC, 1), (0x1FF2, 0x1FF4, 1), (0x1FF6, 0x1FFC, 1), (0x2071, 0x2071, 1),
   (0x207F, 0x207F, 1), (0x2090, 0x209C, 1), (0x2102, 0x2102, 1), (0x2107, 0x2107, 1),
   (0x210A, 0x2113, 1), (0x2115, 0x2115, 1), (0x2119, 0x211D, 1), (0x2124, 0x212A, 2),
   (0x212B, 0x212D, 1), (0x212F, 0x2134, 1), (0x2139, 0x2139, 1), (0x213C, 0x213F, 1),
   (0x2145, 0x2149, 1), (0x214E, 0x214E, 1), (0x2160, 0x217F, 1), (0x2183, 0x2184, 1),
   (0x24B6, 0x24E9, 1), (0x2C00, 0x2CE4, 1), (0x2CEB, 0x2CEE, 1), (0x2CF2, 0x2CF3, 1),
   (0x2D00, 0x2D25, 1), (0x2D27, 0x2D27, 1), (0x2D2D, 0x2D2D, 1), (0xA640, 0xA66D, 1),
   (0xA680, 0xA69D, 1), (0xA722, 0xA787, 1), (0xA78B, 0xA78E, 1), (0xA790, 0xA7CA, 1),
   (0xA7D0, 0xA7D1, 1), (0xA7D3, 0xA7D5, 2), (0xA7D6, 0xA7D9, 1), (0xA7F5, 0xA7F6, 1),
   (0xA7F8, 0xA7FA, 1), (0xAB30, 0xAB5A, 1), (0xAB5C, 0xAB68, 1), (0xAB70, 0xABBF, 1),
   (0xFB00, 0xFB06, 1), (0xFB13, 0xFB17, 1), (0xFF21, 0xFF3A, 1), (0xFF41, 0xFF5A, 1),
   (0x10400, 0x1044F, 1), (0x104B0, 0x104D3, 1), (0x104D8, 0x104FB, 1), (0x10570, 0x1057A, 1),
   (0x1057C, 0x1058A, 1), (0x1058C, 0x10592, 1), (0x10594, 0x10595, 1), (0x10597, 0x105A1, 1),
   (0x105A3, 0x105B1, 1), (0x105B3, 0x105B9, 1), (0x105BB, 0x105BC, 1), (0x10780, 0x10780, 1),
   (0x10783, 0x10785, 1), (0x10787, 0x107B0, 1), (0x107B2, 0x107BA, 1), (0x10C80, 0x10CB2, 1),
   (0x10CC0, 0x10CF2, 1), (0x118A0, 0x118DF, 1), (0x16E40, 0x16E7F, 1), (0x1D400, 0x1D454, 1),
   (0x1D456, 0x1D49C, 1), (0x1D49E, 0x1D49F, 1), (0x1D4A2, 0x1D4A2, 1), (0x1D4A5, 0x1D4A6, 1),
   (0x1D4A9, 0x1D4AC, 1), (0x1D4AE, 0x1D4B9, 1), (0x1D4BB, 0x1D4BD, 2), (0x1D4BE, 0x1D4C3, 1),
   (0x1D4C5, 0x1D505, 1), (0x1D507, 0x1D50A, 1), (0x1D50D, 0x1D514, 1), (0x1D516, 0x1D51C, 1),
   (0x1D51E, 0x1D539, 1), (0x1D53B, 0x1D53E, 1), (0x1D540, 0x1D544, 1), (0x1D546, 0x1D546, 1),
   (0x1D54A, 0x1D550, 1), (0x1D552, 0x1D6A5, 1), (0x1D6A8, 0x1D6C0, 1), (0x1D6C2, 0x1D6DA, 1),
   (0x1D6DC, 0x1D6FA, 1), (0x1D6FC, 0x1D714, 1), (0x1D716, 0x1D734, 1), (0x1D736, 0x1D74E, 1),
   (0x1D750, 0x1D76E, 1), (0x1D770, 0x1D788, 1), (0x1D78A, 0x1D7A8, 1), (0x1D7AA, 0x1D7C2, 1),
   (0x1D7C4, 0x1D7CB, 1), (0x1DF00, 0x1DF09, 1), (0x1DF0B, 0x1DF1E, 1), (0x1E900, 0x1E943, 1),
   (0x1F130, 0x1F149, 1), (0x1F150, 0x1F169, 1), (0x1F170, 0x1F189, 1)]

/-- The code points with the property `Case_Ignorable`. -/
def caseIgnorableRanges : List (Nat × Nat × Nat) :=
  [(0x27, 0x27, 1), (0x2E, 0x2E, 1), (0x3A, 0x3A, 1), (0x5E, 0x60, 2),
   (0xA8, 0xA8, 1), (0xAD, 0xAF, 2), (0xB4, 0xB4, 1), (0xB7, 0xB8, 1),
   (0x2B0, 0x36F, 1), (0x374, 0x375, 1), (0x37A, 0x37A, 1), (0x384, 0x385, 1),
   (0x387, 0x387, 1), (0x483, 0x489, 1), (0x559, 0x559, 1), (0x55F, 0x55F, 1),
   (0x591, 0x5BD, 1), (0x5BF, 0x5C1, 2), (0x5C2, 0x5C4, 2), (0x5C5, 0x5C7, 2),
   (0x5F4, 0x5F4, 1), (0x600, 0x605, 1), (0x610, 0x61A, 1), (0x61C, 0x61C, 1),
   (0x640, 0x640, 1), (0x64B, 0x65F, 1), (0x670, 0x670, 1), (0x6D6, 0x6DD, 1),
   (0x6DF, 0x6E8, 1), (0x6EA, 0x6ED, 1), (0x70F, 0x711, 2), (0x730, 0x74A, 1),
   (0x7A6, 0x7B0, 1), (0x7EB, 0x7F5, 1), (0x7FA, 0x7FA, 1), (0x7FD, 0x7FD, 1),
   (0x816, 0x82D, 1), (0x859, 0x85B, 1), (0x888, 0x888, 1), (0x890, 0x891, 1),
   (0x898, 0x89F, 1), (0x8C9, 0x902, 1), (0x93A, 0x93C, 2), (0x941, 0x948, 1),
   (0x94D, 0x94D, 1), (0x951, 0x957, 1), (0x962, 0x963, 1), (0x971, 0x971, 1),
   (0x981, 0x981, 1), (0x9BC, 0x9BC, 1), (0x9C1, 0x9C4, 1), (0x9CD, 0x9CD, 1),
   (0x9E2, 0x9E3, 1), (0x9FE, 0x9FE, 1), (0xA01, 0xA02, 1), (0xA3C, 0xA3C, 1),
   (0xA41, 0xA42, 1), (0xA47, 0xA48, 1), (0xA4B, 0xA4D, 1), (0xA51, 0xA51, 1),
   (0xA70, 0xA71, 1), (0xA75, 0xA75, 1), (0xA81, 0xA82, 1), (0xABC, 0xABC, 1),
   (0xAC1, 0xAC5, 1), (0xAC7, 0xAC8, 1), (0xACD, 0xACD, 1), (0xAE2, 0xAE3, 1),
   (0xAFA, 0xAFF, 1), (0xB01, 0xB01, 1), (0xB3C, 0xB3C, 1), (0xB3F, 0xB41, 2),
   (0xB42, 0xB44, 1), (0xB4D, 0xB4D, 1), (0xB55, 0xB56, 1), (0xB62, 0xB63, 1),
   (0xB82, 0xB82, 1), (0xBC0, 0xBC0, 1), (0xBCD, 0xBCD, 1), (0xC00, 0xC00, 1),
   (0xC04, 0xC04, 1), (0xC3C, 0xC3E, 2), (0xC3F, 0xC40, 1), (0xC46, 0xC48, 1),
   (0xC4A, 0xC4D, 1), (0xC55, 0xC56, 1), (0xC62, 0xC63, 1), (0xC81, 0xC81, 1),
   (0xCBC, 0xCBC, 1), (0xCBF, 0xCBF, 1), (0xCC6, 0xCC6, 1), (0xCCC, 0xCCD, 1),
   (0xCE2, 0xCE3, 1), (0xD00, 0xD01, 1), (0xD3B, 0xD3C, 1), (0xD41, 0xD44, 1),
   (0xD4D, 0xD4D, 1), (0xD62, 0xD63, 1), (0xD81, 0xD81, 1), (0xDCA, 0xDCA, 1),
   (0xDD2, 0xDD4, 1), (0xDD6, 0xDD6, 1), (0xE31, 0xE31, 1), (0xE34, 0xE3A, 1),
   (0xE46, 0xE4E, 1), (0xEB1, 0xEB1, 1), (0xEB4, 0xEBC, 1), (0xEC6, 0xEC8, 2),
   (0xEC9, 0xECD, 1), (0xF18, 0xF19, 1), (0xF35, 0xF39, 2), (0xF71, 0xF7E, 1),
   (0xF80, 0xF84, 1), (0xF86, 0xF87, 1), (0xF8D, 0xF97, 1), (0xF99, 0xFBC, 1),
   (0xFC6, 0xFC6, 1), (0x102D, 0x1030, 1), (0x1032, 0x1037, 1), (0x1039, 0x103A, 1),
   (0x103D, 0x103E, 1), (0x1058, 0x1059, 1), (0x105E, 0x1060, 1), (0x1071, 0x1074, 1),
   (0x1082, 0x1082, 1), (0x1085, 0x1086, 1), (0x108D, 0x108D, 1), (0x109D, 0x109D, 1),
   (0x10FC, 0x10FC, 1), (0x135D, 0x135F, 1), (0x1712, 0x1714, 1), (0x1732, 0x1733, 1),
   (0x1752, 0x1753, 1), (0x1772, 0x1773, 1), (0x17B4, 0x17B5, 1), (0x17B7, 0x17BD, 1),
   (0x17C6, 0x17C6, 1), (0x17C9, 0x17D3, 1), (0x17D7, 0x17D7, 1), (0x17DD, 0x17DD, 1),
   (0x180B, 0x180F, 1), (0x1843, 0x1843, 1), (0x1885, 0x1886, 1), (0x18A9, 0x18A9, 1),
   (0x1920, 0x1922, 1), (0x1927, 0x1928, 1), (0x1932, 0x1932, 1), (0x1939, 0x193B, 1),
   (0x1A17, 0x1A18, 1), (0x1A1B, 0x1A1B, 1), (0x1A56, 0x1A58, 2), (0x1A59, 0x1A5E, 1),
   (0x1A60, 0x1A62, 2), (0x1A65, 0x1A6C, 1), (0x1A73, 0x1A7C, 1), (0x1A7F, 0x1A7F, 1),
   (0x1AA7, 0x1AA7, 1), (0x1AB0, 0x1ACE, 1), (0x1B00, 0x1B03, 1), (0x1B34, 0x1B36, 2),
   (0x1B37, 0x1B3A, 1), (0x1B3C, 0x1B3C, 1), (0x1B42, 0x1B42, 1), (0x1B6B, 0x1B73, 1),
   (0x1B80, 0x1B81, 1), (0x1BA2, 0x1BA5, 1), (0x1BA8, 0x1BA9, 1), (0x1BAB, 0x1BAD, 1),
   (0x1BE6, 0x1BE8, 2), (0x1BE9, 0x1BE9, 1), (0x1BED, 0x1BEF, 2), (0x1BF0, 0x1BF1, 1),
   (0x1C2C, 0x1C33, 1), (0x1C36, 0x1C37, 1), (0x1C78, 0x1C7D, 1), (0x1CD0, 0x1CD2, 1),
   (0x1CD4, 0x1CE0, 1), (0x1CE2, 0x1CE8, 1), (0x1CED, 0x1CED, 1), (0x1CF4, 0x1CF4, 1),
   (0x1CF8, 0x1CF9, 1), (0x1D2C, 0x1D6A, 1), (0x1D78, 0x1D78, 1), (0x1D9B, 0x1DFF, 1),
   (0x1FBD, 0x1FBF, 2), (0x1FC0, 0x1FC1, 1), (0x1FCD, 0x1FCF, 1), (0x1FDD, 0x1FDF, 1),
   (0x1FED, 0x1FEF, 1), (0x1FFD, 0x1FFE, 1), (0x200B, 0x200F, 1), (0x2018, 0x2019, 1),
   (0x2024, 0x2024, 1), (0x2027, 0x2027, 1), (0x202A, 0x202E, 1), (0x2060, 0x2064, 1),
   (0x2066, 0x206F, 1), (0x2071, 0x2071, 1), (0x207F, 0x207F, 1), (0x2090, 0x209C, 1),
   (0x20D0, 0x20F0, 1), (0x2C7C, 0x2C7D, 1), (0x2CEF, 0x2CF1, 1), (0x2D6F, 0x2D6F, 1),
   (0x2D7F, 0x2D7F, 1), (0x2DE0, 0x2DFF, 1), (0x2E2F, 0x2E2F, 1), (0x3005, 0x3005, 1),
   (0x302A, 0x302D, 1), (0x3031, 0x3035, 1), (0x303B, 0x303B, 1), (0x3099, 0x309E, 1),
   (0x30FC, 0x30FE, 1), (0xA015, 0xA015, 1), (0xA4F8, 0xA4FD, 1), (0xA60C, 0xA60C, 1),
   (0xA66F, 0xA672, 1), (0xA674, 0xA67D, 1), (0xA67F, 0xA67F, 1), (0xA69C, 0xA69F, 1),
   (0xA6F0, 0xA6F1, 1), (0xA700, 0xA721, 1), (0xA770, 0xA770, 1), (0xA788, 0xA78A, 1),
   (0xA7F2, 0xA7F4, 1), (0xA7F8, 0xA7F9, 1), (0xA802, 0xA802, 1), (0xA806, 0xA806, 1),
   (0xA80B, 0xA80B, 1), (0xA825, 0xA826, 1), (0xA82C, 0xA82C, 1), (0xA8C4, 0xA8C5, 1),
   (0xA8E0, 0xA8F1, 1), (0xA8FF, 0xA8FF, 1), (0xA926, 0xA92D, 1), (0xA947, 0xA951, 1),
   (0xA980, 0xA982, 1), (0xA9B3, 0xA9B3, 1), (0xA9B6, 0xA9B9, 1), (0xA9BC, 0xA9BD, 1),
   (0xA9CF, 0xA9CF, 1), (0xA9E5, 0xA9E6, 1), (0xAA29, 0xAA2E, 1), (0xAA31, 0xAA32, 1),
   (0xAA35, 0xAA36, 1), (0xAA43, 0xAA43, 1), (0xAA4C, 0xAA4C, 1), (0xAA70, 0xAA70, 1),
   (0xAA7C, 0xAA7C, 1), (0xAAB0, 0xAAB2, 2), (0xAAB3, 0xAAB4, 1), (0xAAB7, 0xAAB8, 1),
   (0xAABE, 0xAABF, 1), (0xAAC1, 0xAAC1, 1), (0xAADD, 0xAADD, 1), (0xAAEC, 0xAAED, 1),
   (0xAAF3, 0xAAF4, 1), (0xAAF6, 0xAAF6, 1), (0xAB5B, 0xAB5F, 1), (0xAB69, 0xAB6B, 1),
   (0xABE5, 0xABE5, 1), (0xABE8, 0xABE8, 1), (0xABED, 0xABED, 1), (0xFB1E, 0xFB1E, 1),
   (0xFBB2, 0xFBC2, 1), (0xFE00, 0xFE0F, 1), (0xFE13, 0xFE13, 1), (0xFE20, 0xFE2F, 1),
   (0xFE52, 0xFE52, 1), (0xFE55, 0xFE55, 1), (0xFEFF, 0xFEFF, 1), (0xFF07, 0xFF07, 1),
   (0xFF0E, 0xFF0E, 1), (0xFF1A, 0xFF1A, 1), (0xFF3E, 0xFF40, 2), (0xFF70, 0xFF70, 1),
   (0xFF9E, 0xFF9F, 1), (0xFFE3, 0xFFE3, 1), (0xFFF9, 0xFFFB, 1), (0x101FD, 0x101FD, 1),
   (0x102E0, 0x102E0, 1), (0x10376, 0x1037A, 1), (0x10780, 0x10785, 1), (0x10787, 0x107B0, 1),
   (0x107B2, 0x107BA, 1), (0x10A01, 0x10A03, 1), (0x10A05, 0x10A06, 1), (0x10A0C, 0x10A0F, 1),
   (0x10A38, 0x10A3A, 1), (0x10A3F, 0x10A3F, 1), (0x10AE5, 0x10AE6, 1), (0x10D24, 0x10D27, 1),
   (0x10EAB, 0x10EAC, 1), (0x10F46, 0x10F50, 1), (0x10F82, 0x10F85, 1), (0x11001, 0x11001, 1),
   (0x11038, 0x11046, 1), (0x11070, 0x11070, 1), (0x11073, 0x11074, 1), (0x1107F, 0x11081, 1),
   (0x110B3, 0x110B6, 1), (0x110B9, 0x110BA, 1), (0x110BD, 0x110BD, 1), (0x110C2, 0x110C2, 1),
   (0x110CD, 0x110CD, 1), (0x11100, 0x11102, 1), (0x11127, 0x1112B, 1), (0x1112D, 0x11134, 1),
   (0x11173, 0x11173, 1), (0x11180, 0x11181, 1), (0x111B6, 0x111BE, 1), (0x111C9, 0x111CC, 1),
   (0x111CF, 0x111CF, 1), (0x1122F, 0x11231, 1), (0x11234, 0x11236, 2), (0x11237, 0x11237, 1),
   (0x1123E, 0x1123E, 1), (0x112DF, 0x112DF, 1), (0x112E3, 0x112EA, 1), (0x11300, 0x11301, 1),
   (0x1133B, 0x1133C, 1), (0x11340, 0x11340, 1), (0x11366, 0x1136C, 1), (0x11370, 0x11374, 1),
   (0x11438, 0x1143F, 1), (0x11442, 0x11444, 1), (0x11446, 0x11446, 1), (0x1145E, 0x1145E, 1),
   (0x114B3, 0x114B8, 1), (0x114BA, 0x114BA, 1), (0x114BF, 0x114C0, 1), (0x114C2, 0x114C3, 1),
   (0x115B2, 0x115B5, 1), (0x115BC, 0x115BD, 1), (0x115BF, 0x115C0, 1), (0x115DC, 0x115DD, 1),
   (0x11633, 0x1163A, 1), (0x1163D, 0x1163F, 2), (0x11640, 0x11640, 1), (0x116AB, 0x116AD, 2),
   (0x116B0, 0x116B5, 1), (0x116B7, 0x116B7, 1), (0x1171D, 0x1171F, 1), (0x11722, 0x11725, 1),
   (0x11727, 0x1172B, 1), (0x1182F, 0x11837, 1), (0x11839, 0x1183A, 1), (0x1193B, 0x1193C, 1),
   (0x1193E, 0x1193E, 1), (0x11943, 0x11943, 1), (0x119D4, 0x119D7, 1), (0x119DA, 0x119DB, 1),
   (0x119E0, 0x119E0, 1), (0x11A01, 0x11A0A, 1), (0x11A33, 0x11A38, 1), (0x11A3B, 0x11A3E, 1),
   (0x11A47, 0x11A47, 1), (0x11A51, 0x11A56, 1), (0x11A59, 0x11A5B, 1), (0x11A8A, 0x11A96, 1),
   (0x11A98, 0x11A99, 1), (0x11C30, 0x11C36, 1), (0x11C38, 0x11C3D, 1), (0x11C3F, 0x11C3F, 1),
   (0x11C92, 0x11CA7, 1), (0x11CAA, 0x11CB0, 1), (0x11CB2, 0x11CB3, 1), (0x11CB5, 0x11CB6, 1),
   (0x11D31, 0x11D36, 1), (0x11D3A, 0x11D3C, 2), (0x11D3D, 0x11D3F, 2), (0x11D40, 0x11D45, 1),
   (0x11D47, 0x11D47, 1), (0x11D90, 0x11D91, 1), (0x11D95, 0x11D97, 2), (0x11EF3, 0x11EF4, 1),
   (0x13430, 0x13438, 1), (0x16AF0, 0x16AF4, 1), (0x16B30, 0x16B36, 1), (0x16B40, 0x16B43, 1),
   (0x16F4F, 0x16F4F, 1), (0x16F8F, 0x16F9F, 1), (0x16FE0, 0x16FE1, 1), (0x16FE3, 0x16FE4, 1),
   (0x1AFF0, 0x1AFF3, 1), (0x1AFF5, 0x1AFFB, 1), (0x1AFFD, 0x1AFFE, 1), (0x1BC9D, 0x1BC9E, 1),
   (0x1BCA0, 0x1BCA3, 1), (0x1CF00, 0x1CF2D, 1), (0x1CF30, 0x1CF46, 1), (0x1D167, 0x1D169, 1),
   (0x1D173, 0x1D182, 1), (0x1D185, 0x1D18B, 1), (0x1D1AA, 0x1D1AD, 1), (0x1D242, 0x1D244, 1),
   (0x1DA00, 0x1DA36, 1), (0x1DA3B, 0x1DA6C, 1), (0x1DA75, 0x1DA75, 1), (0x1DA84, 0x1DA84, 1),
   (0x1DA9B, 0x1DA9F, 1), (0x1DAA1, 0x1DAAF, 1), (0x1E000, 0x1E006, 1), (0x1E008, 0x1E018, 1),
   (0x1E01B, 0x1E021, 1), (0x1E023, 0x1E024, 1), (0x1E026, 0x1E02A, 1), (0x1E130, 0x1E13D, 1),
   (0x1E2AE, 0x1E2AE, 1), (0x1E2EC, 0x1E2EF, 1), (0x1E8D0, 0x1E8D6, 1), (0x1E944, 0x1E94B, 1),
   (0x1F3FB, 0x1F3FF, 1), (0xE0001, 0xE0001, 1), (0xE0020, 0xE007F, 1), (0xE0100, 0xE01EF, 1)]

/-- The code points of general category `Lu` (letter, uppercase). -/
def uppercaseLetterRanges : List (Nat × Nat × Nat) :=
  [(0x41, 0x5A, 1), (0xC0, 0xD6, 1), (0xD8, 0xDE, 1), (0x100, 0x136, 2),
   (0x139, 0x147, 2), (0x14A, 0x178, 2), (0x179, 0x17D, 2), (0x181, 0x182, 1),
   (0x184, 0x186, 2), (0x187, 0x189, 2), (0x18A, 0x18B, 1), (0x18E, 0x191, 1),
   (0x193, 0x194, 1), (0x196, 0x198, 1), (0x19C, 0x19D, 1), (0x19F, 0x1A0, 1),
   (0x1A2, 0x1A6, 2), (0x1A7, 0x1A9, 2), (0x1AC, 0x1AE, 2), (0x1AF, 0x1B1, 2),
   (0x1B2, 0x1B3, 1), (0x1B5, 0x1B7, 2), (0x1B8, 0x1B8, 1), (0x1BC, 0x1BC, 1),
   (0x1C4, 0x1C4, 1), (0x1C7, 0x1C7, 1), (0x1CA, 0x1CA, 1), (0x1CD, 0x1DB, 2),
   (0x1DE, 0x1EE, 2), (0x1F1, 0x1F1, 1), (0x1F4, 0x1F6, 2), (0x1F7, 0x1F8, 1),
   (0x1FA, 0x232, 2), (0x23A, 0x23B, 1), (0x23D, 0x23E, 1), (0x241, 0x243, 2),
   (0x244, 0x246, 1), (0x248, 0x24E, 2), (0x370, 0x372, 2), (0x376, 0x376, 1),
   (0x37F, 0x37F, 1), (0x386, 0x388, 2), (0x389, 0x38A, 1), (0x38C, 0x38E, 2),
   (0x38F, 0x391, 2), (0x392, 0x3A1, 1), (0x3A3, 0x3AB, 1), (0x3CF, 0x3CF, 1),
   (0x3D2, 0x3D4, 1), (0x3D8, 0x3EE, 2), (0x3F4, 0x3F4, 1), (0x3F7, 0x3F9, 2),
   (0x3FA, 0x3FA, 1), (0x3FD, 0x42F, 1), (0x460, 0x480, 2), (0x48A, 0x4C0, 2),
   (0x4C1, 0x4CD, 2), (0x4D0, 0x52E, 2), (0x531, 0x556, 1), (0x10A0, 0x10C5, 1),
   (0x10C7, 0x10C7, 1), (0x10CD, 0x10CD, 1), (0x13A0, 0x13F5, 1), (0x1C90, 0x1CBA, 1),
   (0x1CBD, 0x1CBF, 1), (0x1E00, 0x1E94, 2), (0x1E9E, 0x1EFE, 2), (0x1F08, 0x1F0F, 1),
   (0x1F18, 0x1F1D, 1), (0x1F28, 0x1F2F, 1), (0x1F38, 0x1F3F, 1), (0x1F48, 0x1F4D, 1),
   (0x1F59, 0x1F5F, 2), (0x1F68, 0x1F6F, 1), (0x1FB8, 0x1FBB, 1), (0x1FC8, 0x1FCB, 1),
   (0x1FD8, 0x1FDB, 1), (0x1FE8, 0x1FEC, 1), (0x1FF8, 0x1FFB, 1), (0x2102, 0x2102, 1),
   (0x2107, 0x2107, 1), (0x210B, 0x210D, 1), (0x2110, 0x2112, 1), (0x2115, 0x2115, 1),
   (0x2119, 0x211D, 1), (0x2124, 0x212A, 2), (0x212B, 0x212D, 1), (0x2130, 0x2133, 1),
   (0x213E, 0x213F, 1), (0x2145, 0x2145, 1), (0x2183, 0x2183, 1), (0x2C00, 0x2C2F, 1),
   (0x2C60, 0x2C62, 2), (0x2C63, 0x2C64, 1), (0x2C67, 0x2C6D, 2), (0x2C6E, 0x2C70, 1),
   (0x2C72, 0x2C72, 1), (0x2C75, 0x2C75, 1), (0x2C7E, 0x2C80, 1), (0x2C82, 0x2CE2, 2),
   (0x2CEB, 0x2CED, 2), (0x2CF2, 0x2CF2, 1), (0xA640, 0xA66C, 2), (0xA680, 0xA69A, 2),
   (0xA722, 0xA72E, 2), (0xA732, 0xA76E, 2), (0xA779, 0xA77D, 2), (0xA77E, 0xA786, 2),
   (0xA78B, 0xA78D, 2), (0xA790, 0xA792, 2), (0xA796, 0xA7AA, 2), (0xA7AB, 0xA7AE, 1),
   (0xA7B0, 0xA7B4, 1), (0xA7B6, 0xA7C4, 2), (0xA7C5, 0xA7C7, 1), (0xA7C9, 0xA7C9, 1),
   (0xA7D0, 0xA7D0, 1), (0xA7D6, 0xA7D8, 2), (0xA7F5, 0xA7F5, 1), (0xFF21, 0xFF3A, 1),
   (0x10400, 0x10427, 1), (0x104B0, 0x104D3, 1), (0x10570, 0x1057A, 1), (0x1057C, 0x1058A, 1),
   (0x1058C, 0x10592, 1), (0x10594, 0x10595, 1), (0x10C80, 0x10CB2, 1), (0x118A0, 0x118BF, 1),
   (0x16E40, 0x16E5F, 1), (0x1D400, 0x1D419, 1), (0x1D434, 0x1D44D, 1), (0x1D468, 0x1D481, 1),
   (0x1D49C, 0x1D49E, 2), (0x1D49F, 0x1D49F, 1), (0x1D4A2, 0x1D4A2, 1), (0x1D4A5, 0x1D4A6, 1),
   (0x1D4A9, 0x1D4AC, 1), (0x1D4AE, 0x1D4B5, 1), (0x1D4D0, 0x1D4E9, 1), (0x1D504, 0x1D505, 1),
   (0x1D507, 0x1D50A, 1), (0x1D50D, 0x1D514, 1), (0x1D516, 0x1D51C, 1), (0x1D538, 0x1D539, 1),
   (0x1D53B, 0x1D53E, 1), (0x1D540, 0x1D544, 1), (0x1D546, 0x1D546, 1), (0x1D54A, 0x1D550, 1),
   (0x1D56C, 0x1D585, 1), (0x1D5A0, 0x1D5B9, 1), (0x1D5D4, 0x1D5ED, 1), (0x1D608, 0x1D621, 1),
   (0x1D63C, 0x1D655, 1), (0x1D670, 0x1D689, 1), (0x1D6A8, 0x1D6C0, 1), (0x1D6E2, 0x1D6FA, 1),
   (0x1D71C, 0x1D734, 1), (0x1D756, 0x1D76E, 1), (0x1D790, 0x1D7A8, 1), (0x1D7CA, 0x1D7CA, 1),
   (0x1E900, 0x1E921, 1)]

/-! ## Strings and `transformAddress` -/

/-- The simple lowercase mapping of a code point: the code point itself when it
has none. -/
def lowerCodePoint (n : Nat) : Nat :=
  match lowercaseRanges.find? (fun r => inRange n r.1 r.2.1 r.2.2.1) with
  | some r => r.2.2.2 + (n - r.1)
  | none => n

/-- The simple lowercase mapping of a character. -/
def simpleLower (c : Char) : Char := Char.ofNat (lowerCodePoint c.toNat)

/-- The property `Cased`. -/
def isCased (c : Char) : Bool := inRanges casedRanges c.toNat

/-- The property `Case_Ignorable`. -/
def isCaseIgnorable (c : Char) : Bool := inRanges caseIgnorableRanges c.toNat

/-- An uppercase letter: general category `Lu`. -/
def isUppercaseLetter (c : Char) : Bool := inRanges uppercaseLetterRanges c.toNat

/-- A character that `toLowerCase` replaces: one with a lowercase mapping. -/
def hasLowercaseMapping (c : Char) : Bool := simpleLower c != c

/-- One direction of the `Final_Sigma` test: skipping case-ignorable
characters, the next character exists and is cased. -/
def followedByCasedLetter : List Char → Bool
  | [] => false
  | c :: rest => if isCaseIgnorable c then followedByCasedLetter rest else isCased c

/-- The lowercase form of the character `c` standing between `before` (the
preceding characters, nearest first) and `after`: capital sigma U+03A3 gives
final sigma U+03C2 under `Final_Sigma` and small sigma U+03C3 otherwise, U+0130
gives `i` and U+0307, any other character its simple lowercase mapping. -/
def lowerChar (before after : List Char) (c : Char) : List Char :=
  if c = '\u03a3' then
    (if !followedByCasedLetter after && followedByCasedLetter before then ['\u03c2']
      else ['\u03c3'])
  else if c = '\u0130' then ['i', '\u0307']
  else [simpleLower c]

/-- The lowercase form of the characters `rest`, which follow `before`. -/
def lowerFrom : List Char → List Char → List Char
  | _, [] => []
  | before, c :: rest => lowerChar before rest c ++ lowerFrom (c :: before) rest

/-- `String.prototype.toLowerCase`: the Unicode default case conversion, on a
string of Unicode scalar values. -/
def toLowerCase (s : String) : String := ⟨lowerFrom [] s.data⟩

/-- The images of the range `r` avoid the range `q`: no image of a member of
`r` is a member of `q`. -/
def imageAvoids (r q : Nat × Nat × Nat × Nat) : Bool :=
  r.2.2.2 + (r.2.1 - r.1) < q.1 || q.2.1 < r.2.2.2 ||
  (List.range ((r.2.1 - r.1) / r.2.2.1 + 1)).all
    (fun k => !inRange (r.2.2.2 + k * r.2.2.1) q.1 q.2.1 q.2.2.1)

/-- No image of a lowercase mapping has a lowercase mapping itself. -/
def lowercaseClosed : Bool :=
  lowercaseRanges.all (fun r => lowercaseRanges.all (fun q => imageAvoids r q))

/-- `String.prototype.startsWith`. -/
def startsWith (s p : String) : Bool := p.data.isPrefixOf s.data

/-- `String.prototype.length`: the number of UTF-16 code units. -/
def jsLength (s : String) : Nat :=
  (s.data.map (fun c => if c.val < 0x10000 then 1 else 2)).sum

/-- `transformAddress` (check.js 33-48): lowercase, then prepend `0x` unless
the lowercased text already starts with it. -/
def transformAddress (address : String) : String :=
  let transformed := toLowerCase address
  if !(startsWith transformed "0x") then "0x" ++ transformed else transformed

/-- The condition under which `transformAddress` prints its length warning
(check.js 43-45); the value returned is the same either way. -/
def lengthWarning (address : String) : Bool :=
  jsLength (transformAddress address) != 42

/-! ## JSON values, `ToString` and `JSON.stringify` -/

/-- A JSON value, as `JSON.parse` produces it. Numbers are the integer ones
(of magnitude below `10^21`, which JavaScript prints as plain decimal digits);
the fields of an object are in property order. -/
inductive Json where
  | null
  | bool (b : Bool)
  | num (n : Int)
  | str (s : String)
  | arr (items : List Json)
  | obj (fields : List (String × Json))

mutual
/-- Decidable equality of JSON values. -/
def Json.decEq : (a b : Json) → Decidable (a = b)
  | .null, .null => isTrue rfl
  | .null, .bool _ => isFalse (fun e => Json.noConfusion e)
  | .null, .num _ => isFalse (fun e => Json.noConfusion e)
  | .null, .str _ => isFalse (fun e => Json.noConfusion e)
  | .null, .arr _ => isFalse (fun e => Json.noConfusion e)
  | .null, .obj _ => isFalse (fun e => Json.noConfusion e)
  | .bool _, .null => isFalse (fun e => Json.noConfusion e)
  | .bool x, .bool y =>
    if h : x = y then isTrue (congrArg Json.bool h) else isFalse (fun e => h (Json.bool.inj e))
  | .bool _, .num _ => isFalse (fun e => Json.noConfusion e)
  | .bool _, .str _ => isFalse (fun e => Json.noConfusion e)
  | .bool _, .arr _ => isFalse (fun e => Json.noConfusion e)
  | .bool _, .obj _ => isFalse (fun e => Json.noConfusion e)
  | .num _, .null => isFalse (fun e => Json.noConfusion e)
  | .num _, .bool _ => isFalse (fun e => Json.noConfusion e)
  | .num x, .num y =>
    if h : x = y then isTrue (congrArg Json.num h) else isFalse (fun e => h (Json.num.inj e))
  | .num _, .str _ => isFalse (fun e => Json.noConfusion e)
  | .num _, .arr _ => isFalse (fun e => Json.noConfusion e)
  | .num _, .obj _ => isFalse (fun e => Json.noConfusion e)
  | .str _, .null => isFalse (fun e => Json.noConfusion e)
  | .str _, .bool _ => isFalse (fun e => Json.noConfusion e)
  | .str _, .num _ => isFalse (fun e => Json.noConfusion e)
  | .str x, .str y =>
    if h : x = y then isTrue (congrArg Json.str h) else isFalse (fun e => h (Json.str.inj e))
  | .str _, .arr _ => isFalse (fun e => Json.noConfusion e)
  | .str _, .obj _ => isFalse (fun e => Json.noConfusion e)
  | .arr _, .null => isFalse (fun e => Json.noConfusion e)
  | .arr _, .bool _ => isFalse (fun e => Json.noConfusion e)
  | .arr _, .num _ => isFalse (fun e => Json.noConfusion e)
  | .arr _, .str _ => isFalse (fun e => Json.noConfusion e)
  | .arr x, .arr y =>
    match Json.decEqItems x y with
    | isTrue h => isTrue (congrArg Json.arr h)
    | isFalse h => isFalse (fun e => h (Json.arr.inj e))
  | .arr _, .obj _ => isFalse (fun e => Json.noConfusion e)
  | .obj _, .null => isFalse (fun e => Json.noConfusion e)
  | .obj _, .bool _ => isFalse (fun e => Json.noConfusion e)
  | .obj _, .num _ => isFalse (fun e => Json.noConfusion e)
  | .obj _, .str _ => isFalse (fun e => Json.noConfusion e)
  | .obj _, .arr _ => isFalse (fun e => Json.noConfusion e)
  | .obj x, .obj y =>
    match Json.decEqFields x y with
    | isTrue h => isTrue (congrArg Json.obj h)
    | isFalse h => isFalse (fun e => h (Json.obj.inj e))
/-- Decidable equality of lists of JSON values. -/
def Json.decEqItems : (a b : List Json) → Decidable (a = b)
  | [], [] => isTrue rfl
  | [], _ :: _ => isFalse (fun e => List.noConfusion e)
  | _ :: _, [] => isFalse (fun e => List.noConfusion e)
  | x :: xs, y :: ys =>
    match Json.decEq x y, Json.decEqItems xs ys with
    | isTrue h1, isTrue h2 => isTrue (congrArg₂ List.cons h1 h2)
    | isFalse h1, _ => isFalse (fun e => h1 (List.cons.inj e).1)
    | _, isFalse h2 => isFalse (fun e => h2 (List.cons.inj e).2)
/-- Decidable equality of the property lists of JSON objects. -/
def Json.decEqFields : (a b : List (String × Json)) → Decidable (a = b)
  | [], [] => isTrue rfl
  | [], _ :: _ => isFalse (fun e => List.noConfusion e)
  | _ :: _, [] => isFalse (fun e => List.noConfusion e)
  | (k, x) :: xs, (l, y) :: ys =>
    if hk : k = l then
      match Json.decEq x y, Json.decEqFields xs ys with
      | isTrue h1, isTrue h2 => isTrue (by rw [hk, h1, h2])
      | isFalse h1, _ => isFalse (fun e => h1 (Prod.mk.inj (List.cons.inj e).1).2)
      | _, isFalse h2 => isFalse (fun e => h2 (List.cons.inj e).2)
    else isFalse (fun e => hk (Prod.mk.inj (List.cons.inj e).1).1)
end

instance : DecidableEq Json := Json.decEq

/-- A JavaScript value that is either `undefined` (`none`) or a JSON value. -/
abbrev JsValue := Option Json

/-- JavaScript truthiness (`ToBoolean`): `undefined`, `null`, `false`, `0` and
the empty string are falsy, everything else (every array and object) is truthy. -/
def truthy : JsValue → Bool
  | none => false
  | some .null => false
  | some (.bool b) => b
  | some (.num n) => n != 0
  | some (.str s) => s != ""
  | some (.arr _) => true
  | some (.obj _) => true

/-- Truthiness of a property that holds a number or is absent. -/
def truthyNumber : Option Nat → Bool
  | none => false
  | some n => n != 0

mutual
/-- `ToString` on a JSON value: what a template literal and `parseInt` see. -/
def Json.toJsString : Json → String
  | .null => "null"
  | .bool b => if b then "true" else "false"
  | .num n => toString n
  | .str s => s
  | .arr items => Json.joinItems items
  | .obj _ => "[object Object]"
/-- `Array.prototype.join(",")`: `null` elements give the empty string. -/
def Json.joinItems : List Json → String
  | [] => ""
  | [x] => Json.itemString x
  | x :: y :: rest => Json.itemString x ++ "," ++ Json.joinItems (y :: rest)
/-- One element of a joined array. -/
def Json.itemString : Json → String
  | .null => ""
  | .bool b => if b then "true" else "false"
  | .num n => toString n
  | .str s => s
  | .arr items => Json.joinItems items
  | .obj _ => "[object Object]"
end

/-- `ToString` on a value that may be `undefined`. -/
def jsToString : JsValue → String
  | none => "undefined"
  | some v => v.toJsString

/-- A hexadecimal digit, lowercase. -/
def hexDigit (n : Nat) : Char :=
  if n < 10 then Char.ofNat (48 + n) else Char.ofNat (87 + n)

/-- `QuoteJSONString` for one character: the escapes `JSON.stringify` emits. -/
def quoteChar (c : Char) : List Char :=
  if c = '"' then ['\\', '"']
  else if c = '\\' then ['\\', '\\']
  else if c.toNat = 8 then ['\\', 'b']
  else if c.toNat = 12 then ['\\', 'f']
  else if c = '\n' then ['\\', 'n']
  else if c = '\r' then ['\\', 'r']
  else if c = '\t' then ['\\', 't']
  else if c.toNat < 32 then
    ['\\', 'u', '0', '0', hexDigit (c.toNat / 16), hexDigit (c.toNat % 16)]
  else [c]

/-- `QuoteJSONString`: the string between double quotes, escaped. -/
def quoteJSONString (s : String) : String :=
  ⟨'"' :: (s.data.flatMap quoteChar ++ ['"'])⟩

mutual
/-- `JSON.stringify` (no indentation) on a JSON value. -/
def Json.stringify : Json → String
  | .null => "null"
  | .bool b => if b then "true" else "false"
  | .num n => toString n
  | .str s => quoteJSONString s
  | .arr items => "[" ++ Json.stringifyItems items ++ "]"
  | .obj fields => "\x7b" ++ Json.stringifyFields fields ++ "\x7d"
/-- The elements of an array, comma separated. -/
def Json.stringifyItems : List Json → String
  | [] => ""
  | [x] => Json.stringify x
  | x :: y :: rest => Json.stringify x ++ "," ++ Json.stringifyItems (y :: rest)
/-- The properties of an object, comma separated. -/
def Json.stringifyFields : List (String × Json) → String
  | [] => ""
  | [(k, v)] => quoteJSONString k ++ ":" ++ Json.stringify v
  | (k, v) :: q :: rest =>
    quoteJSONString k ++ ":" ++ Json.stringify v ++ "," ++ Json.stringifyFields (q :: rest)
end

/-- `String.prototype.includes`: `t` occurs in `s` as a contiguous substring. -/
def includes (s t : String) : Prop := t.data <:+: s.data

instance (s t : String) : Decidable (includes s t) := by
  unfold includes
  infer_instance

/-! ## The transport and `checkAirdrop` -/

/-- An error object thrown in JavaScript, by the properties `check.js` reads:
`statusCode`, `responseData`, `isNetworkError` (its truthiness) and `message`;
an absent property is `none`. -/
structure JsError where
  statusCode : Option Nat
  responseData : JsValue
  isNetworkError : Bool
  message : Option String
  deriving DecidableEq

/-- The `TypeError` raised by a property read or method call on `undefined` or `null`. -/
def typeError (message : String) : JsError :=
  { statusCode := none, responseData := none, isNetworkError := false, message := some message }

/-- The argument of `requestManager.simpleRequest`. -/
structure Request where
  method : String
  url : String
  headers : List (String × String)
  deriving DecidableEq

/-- A transport handle, `new RequestManager(proxy)`: bound to the proxy it was
built with. -/
structure RequestManager where
  proxy : Option String
  deriving DecidableEq

/-- The external world of one run. `newRequestManager proxy` is the outcome of
`new RequestManager(proxy)`; `simpleRequest i rm req` is the outcome of the
request made for the record of index `i`: it resolves to a value (the parsed
response, possibly `undefined`) or rejects with an error object. -/
structure Env where
  newRequestManager : Option String → Except JsError RequestManager
  simpleRequest : Nat → RequestManager → Request → Except JsError JsValue

/-- What `checkAirdrop` returns: `{ success: true, data }` or
`{ success: false, error }`, where `error` is `undefined` when the caught
error has no `message`. -/
inductive AirdropResult where
  | success (data : JsValue)
  | failure (error : Option String)
  deriving DecidableEq

/-- The fixed header set of `checkAirdrop` (check.js 56-62). -/
def requestHeaders : List (String × String) :=
  [("accept", "application/json, text/plain, */*"),
   ("accept-language", "zh-CN,zh;q=0.9,is;q=0.8,ko;q=0.7,de;q=0.6,la;q=0.5,ru;q=0.4"),
   ("if-none-match", "W/\"12b-WSFqxRZqR0JRJhxd69SVtX6mTCU\""),
   ("origin", "https://airdrop.initia.xyz"),
   ("referer", "https://airdrop.initia.xyz/")]

/-- The request `checkAirdrop` builds for an address (check.js 52-69). -/
def airdropRequest (address : String) : Request :=
  { method := "GET",
    url := "https://airdrop-api.initia.xyz/info/initia/" ++ transformAddress address,
    headers := requestHeaders }

/-- The message `checkAirdrop` derives from a caught error (check.js 76-86). -/
def errorMessageOf (error : JsError) : Option String :=
  if truthyNumber error.statusCode then
    let errorMessage := "HTTP错误 " ++ toString (error.statusCode.getD 0)
    if truthy error.responseData then
      some (errorMessage ++ ": " ++ (error.responseData.map Json.stringify).getD "undefined")
    else some errorMessage
  else if error.isNetworkError then some "网络错误"
  else error.message

/-- `checkAirdrop` (check.js 51-93). The address is `undefined` (`none`) when the
record has no `add` column: `address.toLowerCase()` then raises outside the
function's own `try`, so the exception leaves `checkAirdrop`. Every outcome of
the request itself is returned as data. -/
def checkAirdrop (env : Env) (i : Nat) (address : Option String) (requestManager : RequestManager) :
    Except JsError AirdropResult :=
  match address with
  | none => .error (typeError "Cannot read properties of undefined (reading 'toLowerCase')")
  | some a =>
    match env.simpleRequest i requestManager (airdropRequest a) with
    | .ok response => .ok (.success response)
    | .error error => .ok (.failure (errorMessageOf error))

/-! ## JavaScript Numbers (binary64) -/

/-- A JavaScript Number. `fin neg k` is the finite value `(-1)^neg * k * 2^-1074`
(so `fin true 0` is `-0`); every finite binary64 value has this form. -/
inductive JSNumber where
  | nan
  | inf (neg : Bool)
  | fin (neg : Bool) (k : Nat)
  deriving DecidableEq

/-- The integer nearest to `n / d`, ties to the even one (`d > 0`). -/
def roundHalfEven (n d : Nat) : Nat :=
  let q := n / d
  let r := n % d
  if 2 * r < d then q
  else if d < 2 * r then q + 1
  else if q % 2 = 0 then q else q + 1

/-- The number of low bits of `q` that do not fit in a 53-bit significand:
`0` when `q < 2^53`, else `⌊log2 q⌋ - 52`. Called with `fuel = q`. -/
def excessBits : Nat → Nat → Nat
  | 0, _ => 0
  | fuel + 1, q => if q < 2 ^ 53 then 0 else excessBits fuel (q / 2) + 1

/-- Round `n / d`, a magnitude in units of `2^-1074`, to the nearest magnitude
that binary64 can hold with an unbounded exponent: a multiple of `2^s` with a
significand of at most 53 bits. -/
def roundUnits (n d : Nat) : Nat :=
  let q := n / d
  let s := excessBits q q
  roundHalfEven n (d * 2 ^ s) * 2 ^ s

/-- The Number nearest to `(-1)^neg * (n / d) * 2^-1074`: round to nearest, ties
to even, and overflow to an infinity from `2^1024` on. -/
def roundToNumber (neg : Bool) (n d : Nat) : JSNumber :=
  let k := roundUnits n d
  if 2 ^ 2098 ≤ k then .inf neg else .fin neg k

/-- The Number nearest to the rational `(-1)^neg * n / d`. -/
def JSNumber.ofRat (neg : Bool) (n d : Nat) : JSNumber :=
  roundToNumber neg (n * 2 ^ 1074) d

/-- The Number for a natural number (exact below `2^53`). -/
def JSNumber.ofNat (n : Nat) : JSNumber := JSNumber.ofRat false n 1

/-- Holds when `x` is finite and its value is exactly `(-1)^neg * n / d`. -/
def JSNumber.hasValue (x : JSNumber) (neg : Bool) (n d : Nat) : Bool :=
  match x with
  | .fin s k => s == neg && k * d == n * 2 ^ 1074
  | _ => false

/-- Unary minus. -/
def JSNumber.neg : JSNumber → JSNumber
  | .nan => .nan
  | .inf s => .inf (!s)
  | .fin s k => .fin (!s) k

/-- Number addition (`+`), IEEE 754 round to nearest. -/
def JSNumber.add : JSNumber → JSNumber → JSNumber
  | .nan, _ => .nan
  | _, .nan => .nan
  | .inf s, .inf t => if s = t then .inf s else .nan
  | .inf s, .fin _ _ => .inf s
  | .fin _ _, .inf t => .inf t
  | .fin s a, .fin t b =>
    if s = t then roundToNumber s (a + b) 1
    else if a = b then .fin false 0
    else if b < a then roundToNumber s (a - b) 1
    else roundToNumber t (b - a) 1

/-- Number subtraction: `x - y` is `x + (-y)`. -/
def JSNumber.sub (x y : JSNumber) : JSNumber := x.add y.neg

/-- Number division (`/`), IEEE 754 round to nearest. -/
def JSNumber.div : JSNumber → JSNumber → JSNumber
  | .nan, _ => .nan
  | _, .nan => .nan
  | .inf _, .inf _ => .nan
  | .inf s, .fin t _ => .inf (s != t)
  | .fin s _, .inf t => .fin (s != t) 0
  | .fin s a, .fin t b =>
    if b = 0 then (if a = 0 then .nan else .inf (s != t))
    else roundToNumber (s != t) (a * 2 ^ 1074) b

/-- The comparison `0 < x` on Numbers (false for `NaN`). -/
def JSNumber.isPositive : JSNumber → Bool
  | .nan => false
  | .inf s => !s
  | .fin s k => !s && k != 0

/-- The order of Number values, `x ≤ y` (false when either is `NaN`; `-0` and
`+0` are equal). -/
def JSNumber.le : JSNumber → JSNumber → Bool
  | .nan, _ => false
  | _, .nan => false
  | .inf s, .inf t => s || !t
  | .inf s, .fin _ _ => s
  | .fin _ _, .inf t => !t
  | .fin s a, .fin t b =>
    decide ((if s then -(a : Int) else (a : Int)) ≤ (if t then -(b : Int) else (b : Int)))

/-- `Array.prototype.sort((a, b) => a - b)`, insertion of one element: `x` goes
before the first element `y` for which the comparator `x - y` is not positive
(a `NaN` comparator result counts as `0`). -/
def insertByDifference (x : JSNumber) : List JSNumber → List JSNumber
  | [] => [x]
  | y :: ys => if (x.sub y).isPositive then y :: insertByDifference x ys else x :: y :: ys

/-- `Array.prototype.sort((a, b) => a - b)`: the stable sort by the comparator
`a - b`. On an array without `NaN` the comparator is consistent and every
conforming sort returns this list. -/
def sortByDifference (xs : List JSNumber) : List JSNumber :=
  xs.foldr insertByDifference []

/-! ## `parseInt` and `formatAmount` -/

/-- The characters `parseInt` skips at the start: `WhiteSpace` and `LineTerminator`. -/
def isStrWhiteSpaceChar (c : Char) : Bool :=
  let n := c.toNat
  n = 0x9 || n = 0xA || n = 0xB || n = 0xC || n = 0xD || n = 0x20 || n = 0xA0 ||
  n = 0x1680 || (0x2000 ≤ n && n ≤ 0x200A) || n = 0x2028 || n = 0x2029 ||
  n = 0x202F || n = 0x205F || n = 0x3000 || n = 0xFEFF

/-- The value of a string of decimal digits. -/
def digitsValue (digits : List Char) : Nat :=
  digits.foldl (fun acc c => acc * 10 + (c.toNat - 48)) 0

/-- The sign step of `parseInt`: a leading `-` or `+` is removed, and `-`
makes the result negative. -/
def splitSign (s : List Char) : Bool × List Char :=
  match s with
  | [] => (false, [])
  | c :: rest =>
    if c = '-' then (true, rest) else if c = '+' then (false, rest) else (false, c :: rest)

/-- `parseInt(string, 10)`. It converts its argument with `ToString`, skips
leading white space, reads an optional sign and the longest run of decimal
digits, and returns `NaN` when there is no digit; it never raises, which is
why the result is always `.ok`. The digits are converted exactly and rounded
once. -/
def parseInt (string : JsValue) : Except JsError JSNumber :=
  let s := (jsToString string).data.dropWhile isStrWhiteSpaceChar
  let signed := splitSign s
  let z := signed.2.takeWhile Char.isDigit
  if z.isEmpty then .ok .nan
  else .ok (roundToNumber signed.1 (digitsValue z * 2 ^ 1074) 1)

/-- `formatAmount` (check.js 96-103): `parseInt(amountStr, 10) / 1_000_000`,
and `0` in the `catch` branch. -/
def formatAmount (amountStr : JsValue) : JSNumber :=
  match parseInt amountStr with
  | .ok amount => amount.div (JSNumber.ofNat 1000000)
  | .error _ => JSNumber.ofNat 0

/-- An integer in decimal notation: an optional sign, then one or more digits
and nothing else. -/
def isIntegerText (s : String) : Bool :=
  let body := (splitSign s.data).2
  !body.isEmpty && body.all Char.isDigit

/-- A raw amount that reads as an integer: its text (`ToString`) is an
integer in decimal notation. -/
def isIntegerAmount (raw : JsValue) : Bool := isIntegerText (jsToString raw)

/-! ## The batch loop `main` -/

/-- One row of `wallet.csv` as `csv-parse` returns it with `columns: true`: a
column that the file does not have reads as `undefined` (`none`). -/
structure Record where
  num : Option String
  pk : Option String
  add : Option String
  proxy : Option String
  deriving DecidableEq

/-- The `amount` cell of a result row: `amount.toFixed(6)` of a Number (kept as
the Number and the digit count) or a literal text. -/
inductive AmountCell where
  | toFixed (amount : JSNumber) (digits : Nat)
  | text (s : String)
  deriving DecidableEq

/-- A row pushed to `results` (check.js 166-179, 185-198, 205-218). -/
structure ResultRow where
  num : Option String
  pk : Option String
  address : Option String
  amount : AmountCell
  amount_raw : JsValue
  xp_rank : JsValue
  total_xp : JsValue
  jennie_level : JsValue
  frame_level : JsValue
  filet_mignon : JsValue
  status : String
  error : Option String
  deriving DecidableEq

/-- The `stats` object (check.js 121-127). -/
structure Stats where
  totalAddresses : Nat
  successCount : Nat
  failCount : Nat
  totalAmount : JSNumber
  amounts : List JSNumber
  deriving DecidableEq

/-- The observable actions of a run, in the order they happen. -/
inductive Effect where
  | newRequestManager (proxy : Option String)
  | delay
  | request (i : Nat) (requestManager : RequestManager) (request : Request)
  | writeCSV (filePath : String) (data : List ResultRow)
  deriving DecidableEq

/-- The mutable state of the loop of `main`. -/
structure RunState where
  stats : Stats
  results : List ResultRow
  effects : List Effect
  deriving DecidableEq

/-- A property read `data.key` where `data` is neither `undefined` nor `null`:
the property of an object, `undefined` on any other value. -/
def lookupProperty (data : JsValue) (key : String) : JsValue :=
  match data with
  | some (.obj fields) => (fields.find? (fun p => p.1 == key)).map Prod.snd
  | _ => none

/-- A property read `data.key`: raises a `TypeError` on `undefined` and on `null`. -/
def getProperty (data : JsValue) (key : String) : Except JsError JsValue :=
  match data with
  | none =>
    .error (typeError ("Cannot read properties of undefined (reading '" ++ key ++ "')"))
  | some .null =>
    .error (typeError ("Cannot read properties of null (reading '" ++ key ++ "')"))
  | _ => .ok (lookupProperty data key)

/-- The row of a failed record (check.js 185-198 and 205-218). -/
def errorRow (record : Record) (address : Option String) (error : Option String) : ResultRow :=
  { num := record.num, pk := record.pk, address := address,
    amount := .text "0", amount_raw := some (.str "0"),
    xp_rank := some (.str ""), total_xp := some (.str ""), jennie_level := some (.str ""),
    frame_level := some (.str ""), filet_mignon := some (.str ""),
    status := "error", error := error }

/-- The row of a successful record (check.js 166-179). -/
def successRow (record : Record) (address : Option String) (amount : JSNumber)
    (data : JsValue) : ResultRow :=
  { num := record.num, pk := record.pk, address := address,
    amount := .toFixed amount 6, amount_raw := lookupProperty data "amount",
    xp_rank := lookupProperty data "xp_rank", total_xp := lookupProperty data "total_xp",
    jennie_level := lookupProperty data "jennie_level",
    frame_level := lookupProperty data "frame_level",
    filet_mignon := lookupProperty data "filet_mignon",
    status := "success", error := some "" }

/-- The state after `stats.failCount++` and the push of an error row. -/
def recordFailure (st : RunState) (record : Record) (address : Option String)
    (error : Option String) : RunState :=
  { st with
    stats := { st.stats with failCount := st.stats.failCount + 1 },
    results := st.results ++ [errorRow record address error] }

/-- The state after the three updates of `stats` and the push of a success row. -/
def recordSuccess (st : RunState) (record : Record) (address : Option String)
    (amount : JSNumber) (data : JsValue) : RunState :=
  { st with
    stats := { st.stats with
      successCount := st.stats.successCount + 1,
      totalAmount := st.stats.totalAmount.add amount,
      amounts := st.stats.amounts ++ [amount] },
    results := st.results ++ [successRow record address amount data] }

/-- The request a call of `checkAirdrop` sends: none when the address is
`undefined`, since the call raises before it reaches the transport. -/
def requestEffects (i : Nat) (address : Option String) (requestManager : RequestManager) :
    List Effect :=
  match address with
  | none => []
  | some a => [.request i requestManager (airdropRequest a)]

/-- The body of the `try` of the loop with its `catch` (check.js 150-219). An
exception can only be raised by `checkAirdrop` or by the read `data.amount`,
both before `stats` or `results` are touched. -/
def tryRecord (env : Env) (i : Nat) (record : Record) (requestManager : RequestManager)
    (st : RunState) : RunState :=
  let address := record.add
  let st := { st with effects := st.effects ++ requestEffects i address requestManager }
  match checkAirdrop env i address requestManager with
  | .error error => recordFailure st record address error.message
  | .ok (.success data) =>
    match getProperty data "amount" with
    | .error error => recordFailure st record address error.message
    | .ok rawAmount => recordSuccess st record address (formatAmount rawAmount) data
  | .ok (.failure error) => recordFailure st record address error

/-- One iteration of the loop (check.js 133-220). `new RequestManager(proxy)`
stands before the `try`: when it raises, the exception leaves the loop and the
state reached so far is returned with it. The delay before every record but
the first is `Math.random() * 1500` milliseconds (the comment on that line
speaks of 2 to 5 seconds). -/
def processRecord (env : Env) (i : Nat) (record : Record) (st : RunState) :
    Except (JsError × RunState) RunState :=
  match env.newRequestManager record.proxy with
  | .error error => .error (error, st)
  | .ok requestManager =>
    let st := { st with effects := st.effects ++ [.newRequestManager record.proxy] }
    let st := if i > 0 then { st with effects := st.effects ++ [.delay] } else st
    .ok (tryRecord env i record requestManager st)

/-- The `for` loop over the records, from index `i` on. -/
def processRecords (env : Env) : Nat → List Record → RunState →
    Except (JsError × RunState) RunState
  | _, [], st => .ok st
  | i, record :: rest, st =>
    match processRecord env i record st with
    | .error e => .error e
    | .ok st => processRecords env (i + 1) rest st

/-- The figures computed after the loop (check.js 226-229). -/
structure Summary where
  minAmount : JSNumber
  maxAmount : JSNumber
  avgAmount : JSNumber
  deriving DecidableEq

/-- The summary of a sorted `amounts` array and the total (check.js 227-229). -/
def summarize (sorted : List JSNumber) (totalAmount : JSNumber) : Summary :=
  { minAmount := if sorted.length > 0 then sorted.headD (JSNumber.ofNat 0) else JSNumber.ofNat 0,
    maxAmount := if sorted.length > 0 then sorted.getLastD (JSNumber.ofNat 0) else JSNumber.ofNat 0,
    avgAmount := if sorted.length > 0 then totalAmount.div (JSNumber.ofNat sorted.length)
      else JSNumber.ofNat 0 }

/-- `readCSV` (check.js 7-20): the records, or `process.exit(1)` when the file
cannot be read or parsed. The input is the outcome of reading and parsing. -/
def readCSV (input : Except String (List Record)) : Except Nat (List Record) :=
  match input with
  | .ok records => .ok records
  | .error _ => .error 1

/-- How a run of `main` ends. -/
inductive MainOutcome where
  | exited (code : Nat)
  | returnedNoRecords (effects : List Effect)
  | rejected (error : JsError) (state : RunState)
  | completed (stats : Stats) (results : List ResultRow) (summary : Summary)
      (effects : List Effect)
  deriving DecidableEq

/-- `main` (check.js 106-245). -/
def main (env : Env) (input : Except String (List Record)) : MainOutcome :=
  match readCSV input with
  | .error code => .exited code
  | .ok records =>
    if records.length = 0 then .returnedNoRecords []
    else
      let stats : Stats :=
        { totalAddresses := records.length, successCount := 0, failCount := 0,
          totalAmount := JSNumber.ofNat 0, amounts := [] }
      match processRecords env 0 records { stats := stats, results := [], effects := [] } with
      | .error (error, st) => .rejected error st
      | .ok st =>
        let effects := st.effects ++ [.writeCSV "initia_result.csv" st.results]
        let sorted := sortByDifference st.stats.amounts
        .completed { st.stats with amounts := sorted } st.results
          (summarize sorted st.stats.totalAmount) effects

/-- The exit status of the process: `process.exit(1)` in `readCSV`, `1` from the
handler `main().catch(...)` when `main` rejects (check.js 248-251), and `0`
when `main` returns. -/
def exitStatus : MainOutcome → Nat
  | .exited code => code
  | .returnedNoRecords _ => 0
  | .rejected _ _ => 1
  | .completed _ _ _ _ => 0

/-- The rows a run handed to `writeCSV`, if it did. -/
def writtenRows : MainOutcome → Option (List ResultRow)
  | .completed _ results _ _ => some results
  | _ => none

/-- The final `stats` of a run that reached the end of `main`. -/
def finalStats : MainOutcome → Option Stats
  | .completed stats _ _ _ => some stats
  | _ => none

/-- The summary figures of a run that reached the end of `main`. -/
def finalSummary : MainOutcome → Option Summary
  | .completed _ _ summary _ => some summary
  | _ => none

/-- The actions of a run, in order. -/
def effectsOf : MainOutcome → List Effect
  | .exited _ => []
  | .returnedNoRecords effects => effects
  | .rejected _ st => st.effects
  | .completed _ _ _ effects => effects

/-- An action on the transport: a handle built or a request sent. -/
def Effect.isTransport : Effect → Bool
  | .newRequestManager _ => true
  | .request _ _ _ => true
  | _ => false

/-- The number of transport handles built and of requests sent in a run. -/
def transportActions (outcome : MainOutcome) : Nat :=
  ((effectsOf outcome).filter Effect.isTransport).length

/-! ## Vocabulary of the properties -/

/-- The raw amounts of the rows recorded as a success, in row order. -/
def successRaws (rows : List ResultRow) : List JsValue :=
  (rows.filter (fun row => row.status == "success")).map (fun row => row.amount_raw)

/-- The formatted amounts of the rows recorded as a success, in row order. -/
def successAmounts (rows : List ResultRow) : List JSNumber :=
  (successRaws rows).map formatAmount

/-- The identifying cells of a result row. -/
def ResultRow.key (row : ResultRow) : Option String × Option String × Option String :=
  (row.num, row.pk, row.address)

/-- The identifying columns of an input record. -/
def Record.key (record : Record) : Option String × Option String × Option String :=
  (record.num, record.pk, record.add)

/-- The relation between the state before and after one record whose handle
was built: one row is appended, it carries the columns of the record, and
exactly one of the two counters moves. -/
def RecordedOne (record : Record) (st st2 : RunState) : Prop :=
  st2.stats.totalAddresses = st.stats.totalAddresses ∧
  ∃ row : ResultRow, st2.results = st.results ++ [row] ∧ row.key = record.key ∧
    ((row.status = "success" ∧
        st2.stats.successCount = st.stats.successCount + 1 ∧
        st2.stats.failCount = st.stats.failCount ∧
        st2.stats.amounts = st.stats.amounts ++ [formatAmount row.amount_raw] ∧
        st2.stats.totalAmount = st.stats.totalAmount.add (formatAmount row.amount_raw)) ∨
     (row.status = "error" ∧
        st2.stats.successCount = st.stats.successCount ∧
        st2.stats.failCount = st.stats.failCount + 1 ∧
        st2.stats.amounts = st.stats.amounts ∧
        st2.stats.totalAmount = st.stats.totalAmount))

/-- The relation between the state before and after a whole pass over
`records` that appended `rows`. -/
def RecordedAll (records : List Record) (rows : List ResultRow) (st st2 : RunState) : Prop :=
  st2.results = st.results ++ rows ∧
  rows.map ResultRow.key = records.map Record.key ∧
  st2.stats.totalAddresses = st.stats.totalAddresses ∧
  st2.stats.successCount = st.stats.successCount + (successRaws rows).length ∧
  st2.stats.successCount + st2.stats.failCount =
    st.stats.successCount + st.stats.failCount + records.length ∧
  st2.stats.amounts = st.stats.amounts ++ successAmounts rows ∧
  st2.stats.totalAmount = (successAmounts rows).foldl JSNumber.add st.stats.totalAmount

/-! ## Sample worlds -/

/-- A world in which every handle is built and every request rejects with `error`. -/
def rejectingEnv (error : JsError) : Env :=
  { newRequestManager := fun proxy => .ok { proxy := proxy },
    simpleRequest := fun _ _ _ => .error error }

/-- A world in which every handle is built and the request of record `i`
resolves to the `i`-th of `responses` (`undefined` past the end). -/
def answeringEnv (responses : List JsValue) : Env :=
  { newRequestManager := fun proxy => .ok { proxy := proxy },
    simpleRequest := fun i _ _ => .ok (responses.getD i none) }

/-- A world whose `RequestManager` constructor raises on the proxy text
`not-a-proxy-url` and whose requests resolve to `response`. -/
def strictProxyEnv (response : JsValue) : Env :=
  { newRequestManager := fun proxy =>
      if proxy = some "not-a-proxy-url" then .error (typeError "Invalid URL")
      else .ok { proxy := proxy },
    simpleRequest := fun _ _ _ => .ok response }

/-- An error object with a status code and a response body, as the transport
raises for a non-2xx answer. -/
def httpError (statusCode : Nat) (responseData : JsValue) : JsError :=
  { statusCode := some statusCode, responseData := responseData, isNetworkError := false,
    message := some "Request failed" }

/-- An error object flagged as a network error, without status code. -/
def networkError : JsError :=
  { statusCode := none, responseData := none, isNetworkError := true,
    message := some "socket hang up" }

/-- A record with every column present. -/
def sampleRecord (num address proxy : String) : Record :=
  { num := some num, pk := some ("pk" ++ num), add := some address, proxy := some proxy }

/-- A response body whose `amount` is the given text. -/
def amountResponse (amount : String) : JsValue :=
  some (.obj [("amount", .str amount), ("xp_rank", .num 7)])

/-! ## The run of the specification's example -/

/-- Two records with all columns. -/
def exampleRecords : List Record :=
  [sampleRecord "1" "0xab" "", sampleRecord "2" "0xCD" ""]

/-- The world of the example: the two requests are answered with the raw
amounts `1000000` and `2500000`. -/
def exampleEnv : Env :=
  answeringEnv [amountResponse "1000000", amountResponse "2500000"]

/-- The rows of the example run: amounts `1` and `2.5`. -/
def exampleRows : List ResultRow :=
  [successRow (sampleRecord "1" "0xab" "") (some "0xab") (.fin false (2 ^ 1074))
     (amountResponse "1000000"),
   successRow (sampleRecord "2" "0xCD" "") (some "0xCD") (.fin false (5 * 2 ^ 1073))
     (amountResponse "2500000")]

/-- The final `stats` of the example run: total `3.5`. -/
def exampleStats : Stats :=
  { totalAddresses := 2, successCount := 2, failCount := 0,
    totalAmount := .fin false (7 * 2 ^ 1073),
    amounts := [.fin false (2 ^ 1074), .fin false (5 * 2 ^ 1073)] }

/-- The summary of the example run: minimum `1`, maximum `2.5`, average `1.75`. -/
def exampleSummary : Summary :=
  { minAmount := .fin false (2 ^ 1074), maxAmount := .fin false (5 * 2 ^ 1073),
    avgAmount := .fin false (7 * 2 ^ 1072) }

/-- The actions of the example run. -/
def exampleEffects : List Effect :=
  [.newRequestManager (some ""),
   .request 0 { proxy := some "" } (airdropRequest "0xab"),
   .newRequestManager (some ""),
   .delay,
   .request 1 { proxy := some "" } (airdropRequest "0xCD"),
   .writeCSV "initia_result.csv" exampleRows]

/-! ## Lemmas on `toLowerCase` -/

theorem lowercaseClosed_true : lowercaseClosed = true := by decide!

theorem lowerCodePoint_of_none (n : Nat)
    (h : ∀ q ∈ lowercaseRanges, inRange n q.1 q.2.1 q.2.2.1 = false) :
    lowerCodePoint n = n := by
  unfold lowerCodePoint
  have hnone : lowercaseRanges.find? (fun r => inRange n r.1 r.2.1 r.2.2.1) = none := by
    rw [List.find?_eq_none]
    intro q hq
    rw [h q hq]
    exact Bool.false_ne_true
  rw [hnone]

theorem inRange_image_false (r q : Nat × Nat × Nat × Nat) (n : Nat)
    (hr : inRange n r.1 r.2.1 r.2.2.1 = true) (hav : imageAvoids r q = true) :
    inRange (r.2.2.2 + (n - r.1)) q.1 q.2.1 q.2.2.1 = false := by
  unfold inRange at hr
  simp only [Bool.and_eq_true, decide_eq_true_eq, beq_iff_eq] at hr
  obtain ⟨⟨h1, h2⟩, h3⟩ := hr
  unfold imageAvoids at hav
  simp only [Bool.or_eq_true, decide_eq_true_eq, List.all_eq_true, List.mem_range,
    Bool.not_eq_true'] at hav
  rcases hav with (hlt | hgt) | hpt
  · unfold inRange
    have : ¬ q.1 ≤ r.2.2.2 + (n - r.1) := by omega
    simp [this]
  · unfold inRange
    have : ¬ r.2.2.2 + (n - r.1) ≤ q.2.1 := by omega
    simp [this]
  · have hdvd : r.2.2.1 ∣ (n - r.1) := Nat.dvd_of_mod_eq_zero h3
    have hk : (n - r.1) / r.2.2.1 * r.2.2.1 = n - r.1 := Nat.div_mul_cancel hdvd
    have hle : (n - r.1) / r.2.2.1 ≤ (r.2.1 - r.1) / r.2.2.1 :=
      Nat.div_le_div_right (by omega)
    have := hpt ((n - r.1) / r.2.2.1) (by omega)
    rw [hk] at this
    exact this

theorem lowerCodePoint_idem (n : Nat) : lowerCodePoint (lowerCodePoint n) = lowerCodePoint n := by
  cases hf : lowercaseRanges.find? (fun r => inRange n r.1 r.2.1 r.2.2.1) with
  | none =>
    have : lowerCodePoint n = n := by
      unfold lowerCodePoint
      rw [hf]
    rw [this, this]
  | some r =>
    have hval : lowerCodePoint n = r.2.2.2 + (n - r.1) := by
      unfold lowerCodePoint
      rw [hf]
    have hmem : r ∈ lowercaseRanges := List.mem_of_find?_eq_some hf
    have hin : inRange n r.1 r.2.1 r.2.2.1 = true :=
      @List.find?_some _ (fun r => inRange n r.1 r.2.1 r.2.2.1) r lowercaseRanges hf
    rw [hval]
    apply lowerCodePoint_of_none
    intro q hq
    have hclosed := lowercaseClosed_true
    unfold lowercaseClosed at hclosed
    rw [List.all_eq_true] at hclosed
    have h2 := hclosed r hmem
    rw [List.all_eq_true] at h2
    exact inRange_image_false r q n hin (h2 q hq)

theorem toNat_ofNat_of_valid (n : Nat) (h : n.isValidChar) : (Char.ofNat n).toNat = n := by
  unfold Char.ofNat
  rw [dif_pos h]
  rfl

theorem ofNat_of_not_valid (n : Nat) (h : ¬ n.isValidChar) : Char.ofNat n = Char.ofNat 0 := by
  unfold Char.ofNat
  rw [dif_neg h]
  rfl

theorem lowerCodePoint_zero : lowerCodePoint 0 = 0 := by decide!

theorem simpleLower_idem (c : Char) : simpleLower (simpleLower c) = simpleLower c := by
  unfold simpleLower
  by_cases hv : (lowerCodePoint c.toNat).isValidChar
  · rw [toNat_ofNat_of_valid _ hv, lowerCodePoint_idem]
  · rw [ofNat_of_not_valid _ hv, toNat_ofNat_of_valid 0 (by decide), lowerCodePoint_zero]

theorem simpleLower_sigma : simpleLower '\u03c3' = '\u03c3' ∧ simpleLower '\u03c2' = '\u03c2' ∧
    simpleLower 'i' = 'i' ∧ simpleLower '\u0307' = '\u0307' ∧
    simpleLower '0' = '0' ∧ simpleLower 'x' = 'x' ∧
    simpleLower '\u03a3' ≠ '\u03a3' ∧ simpleLower '\u0130' ≠ '\u0130' := by
  decide!

theorem lowerChar_fixed (before after : List Char) (c o : Char)
    (ho : o ∈ lowerChar before after c) : simpleLower o = o := by
  unfold lowerChar at ho
  obtain ⟨h1, h2, h3, h4, -⟩ := simpleLower_sigma
  split_ifs at ho
  · rw [List.mem_singleton.1 ho]
    exact h2
  · rw [List.mem_singleton.1 ho]
    exact h1
  · rcases List.mem_cons.1 ho with h | h
    · rw [h]
      exact h3
    · rw [List.mem_singleton.1 h]
      exact h4
  · rw [List.mem_singleton.1 ho]
    exact simpleLower_idem c

theorem lowerFrom_fixed (cs : List Char) : ∀ (before : List Char) (o : Char),
    o ∈ lowerFrom before cs → simpleLower o = o := by
  induction cs with
  | nil =>
    intro before o ho
    simp [lowerFrom] at ho
  | cons c rest ih =>
    intro before o ho
    simp only [lowerFrom, List.mem_append] at ho
    rcases ho with h | h
    · exact lowerChar_fixed before rest c o h
    · exact ih (c :: before) o h

theorem lowerChar_of_fixed (before after : List Char) (c : Char) (h : simpleLower c = c) :
    lowerChar before after c = [c] := by
  obtain ⟨-, -, -, -, -, -, h7, h8⟩ := simpleLower_sigma
  have hs : c ≠ '\u03a3' := fun e => h7 (e ▸ h)
  have hi : c ≠ '\u0130' := fun e => h8 (e ▸ h)
  unfold lowerChar
  rw [if_neg hs, if_neg hi, h]

theorem lowerFrom_of_fixed (cs : List Char) : ∀ (before : List Char),
    (∀ c ∈ cs, simpleLower c = c) → lowerFrom before cs = cs := by
  induction cs with
  | nil => exact fun _ _ => rfl
  | cons c rest ih =>
    intro before h
    simp only [lowerFrom]
    rw [lowerChar_of_fixed before rest c (h c (List.mem_cons_self _ _)),
      ih (c :: before) (fun d hd => h d (List.mem_cons_of_mem _ hd))]
    rfl

theorem toLowerCase_data (s : String) : (toLowerCase s).data = lowerFrom [] s.data := rfl

theorem toLowerCase_fixed (s : String) (c : Char) (hc : c ∈ (toLowerCase s).data) :
    simpleLower c = c :=
  lowerFrom_fixed s.data [] c hc

theorem toLowerCase_of_fixed (s : String) (h : ∀ c ∈ s.data, simpleLower c = c) :
    toLowerCase s = s := by
  apply String.ext
  rw [toLowerCase_data]
  exact lowerFrom_of_fixed s.data [] h

theorem toLowerCase_idem (s : String) : toLowerCase (toLowerCase s) = toLowerCase s :=
  toLowerCase_of_fixed _ (toLowerCase_fixed s)

theorem fixed_of_toLowerCase_eq (s : String) (h : toLowerCase s = s) (c : Char)
    (hc : c ∈ s.data) : simpleLower c = c := by
  rw [← h] at hc
  exact toLowerCase_fixed s c hc

theorem startsWith_append_self (p s : String) : startsWith (p ++ s) p = true := by
  simp [startsWith, String.data_append]

theorem startsWith_transformAddress (s : String) :
    startsWith (transformAddress s) "0x" = true := by
  unfold transformAddress
  by_cases h : startsWith (toLowerCase s) "0x" = true
  · simp [h]
  · simp only [h, Bool.not_eq_true] at *
    simp only [Bool.not_false, ↓reduceIte]
    exact startsWith_append_self "0x" _

theorem transformAddress_fixed (s : String) (c : Char) (hc : c ∈ (transformAddress s).data) :
    simpleLower c = c := by
  unfold transformAddress at hc
  by_cases h : startsWith (toLowerCase s) "0x" = true
  · simp only [h, Bool.not_true, Bool.false_eq_true, ↓reduceIte] at hc
    exact toLowerCase_fixed s c hc
  · simp only [Bool.not_eq_true] at h
    simp only [h, Bool.not_false, ↓reduceIte, String.data_append] at hc
    obtain ⟨-, -, -, -, h5, h6, -⟩ := simpleLower_sigma
    rcases List.mem_append.1 hc with h0 | h0
    · rcases List.mem_cons.1 h0 with e | e
      · rw [e]
        exact h5
      · rw [List.mem_singleton.1 e]
        exact h6
    · exact toLowerCase_fixed s c h0

theorem toLowerCase_transformAddress (s : String) :
    toLowerCase (transformAddress s) = transformAddress s :=
  toLowerCase_of_fixed _ (transformAddress_fixed s)

theorem hasLowercaseMapping_of_isUpper (c : Char) (h : c.isUpper = true) :
    hasLowercaseMapping c = true := by
  have h2 : 65 ≤ c.toNat ∧ c.toNat ≤ 90 := by
    simp only [Char.isUpper, ge_iff_le, Bool.and_eq_true, decide_eq_true_eq] at h
    exact ⟨h.1, h.2⟩
  have hc : c = Char.ofNat c.toNat := (Char.ofNat_toNat c).symm
  obtain ⟨h3, h4⟩ := h2
  generalize c.toNat = n at hc h3 h4
  subst hc
  interval_cases n <;> decide!

/-! ## Properties of `transformAddress` -/

/-- C8: `transformAddress` is idempotent on every string, and it returns
unchanged every address that is already lowercase (`toLowerCase` leaves it as
it is) and starts with `0x`. -/
theorem transformAddress_idempotent :
    (∀ s : String, transformAddress (transformAddress s) = transformAddress s) ∧
    (∀ s : String, toLowerCase s = s → startsWith s "0x" = true →
      transformAddress s = s) := by
  have key : ∀ s : String, toLowerCase s = s → startsWith s "0x" = true →
      transformAddress s = s := by
    intro s h1 h2
    simp [transformAddress, h1, h2]
  refine ⟨fun s => ?_, key⟩
  exact key _ (toLowerCase_transformAddress s) (startsWith_transformAddress s)

/-- Witness for C8: an address with uppercase letters, one of them outside
`A`-`Z`, and an address that is already lowercase and prefixed. -/
theorem transformAddress_idempotent_witness :
    transformAddress "0XAB\u00c0" = "0xab\u00e0" ∧
    transformAddress (transformAddress "0XAB\u00c0") = transformAddress "0XAB\u00c0" ∧
    toLowerCase "0xabc123" = "0xabc123" ∧ startsWith "0xabc123" "0x" = true ∧
    transformAddress "0xabc123" = "0xabc123" :=
  ⟨by decide!, transformAddress_idempotent.1 "0XAB\u00c0", by decide!, by decide,
   transformAddress_idempotent.2 "0xabc123" (by decide!) (by decide)⟩

/-- C9, counterexample: the address `ℂ` (U+2102, an uppercase letter without
lowercase mapping) is normalised to `0xℂ`, which contains that uppercase
letter. -/
theorem transformAddress_keeps_unmapped_uppercase :
    transformAddress "\u2102" = "0x\u2102" ∧
    '\u2102' ∈ (transformAddress "\u2102").data ∧
    isUppercaseLetter '\u2102' = true := by
  decide!

/-- C9, amended: for every address string, of any case and any length,
`transformAddress` (a total function on strings) returns a string that starts
with `0x` and contains no character that has a lowercase mapping: so no letter
`A`-`Z`, no other uppercase letter unless it has no lowercase form, and
`toLowerCase` leaves the result unchanged. -/
theorem transformAddress_lowercase_prefixed (s : String) :
    startsWith (transformAddress s) "0x" = true ∧
    (∀ c ∈ (transformAddress s).data, hasLowercaseMapping c = false) ∧
    (∀ c ∈ (transformAddress s).data, c.isUpper = false) ∧
    (∀ c ∈ (transformAddress s).data, isUppercaseLetter c = true → simpleLower c = c) ∧
    toLowerCase (transformAddress s) = transformAddress s := by
  have hfix := transformAddress_fixed s
  have hmap : ∀ c ∈ (transformAddress s).data, hasLowercaseMapping c = false := by
    intro c hc
    unfold hasLowercaseMapping
    rw [hfix c hc]
    exact bne_self_eq_false c
  refine ⟨startsWith_transformAddress s, hmap, fun c hc => ?_, fun c hc _ => hfix c hc,
    toLowerCase_transformAddress s⟩
  cases hu : c.isUpper
  · rfl
  · have h1 := hasLowercaseMapping_of_isUpper c hu
    rw [hmap c hc] at h1
    exact Bool.noConfusion h1

/-- Witness for C9 (amended): the address `ABÀ` without prefix. -/
theorem transformAddress_lowercase_prefixed_witness :
    transformAddress "AB\u00c0" = "0xab\u00e0" ∧
    startsWith (transformAddress "AB\u00c0") "0x" = true ∧
    (∀ c ∈ (transformAddress "AB\u00c0").data, hasLowercaseMapping c = false) ∧
    (∀ c ∈ (transformAddress "AB\u00c0").data, c.isUpper = false) ∧
    (∀ c ∈ (transformAddress "AB\u00c0").data,
      isUppercaseLetter c = true → simpleLower c = c) ∧
    toLowerCase (transformAddress "AB\u00c0") = transformAddress "AB\u00c0" :=
  ⟨by decide!, transformAddress_lowercase_prefixed "AB\u00c0"⟩

/-! ## Lemmas on strings -/

theorem includes_append_right (s t : String) : includes (s ++ t) t := by
  unfold includes
  rw [String.data_append]
  exact (List.suffix_append _ _).isInfix

theorem includes_append_left (s t : String) : includes (s ++ t) s := by
  unfold includes
  rw [String.data_append]
  exact (List.prefix_append _ _).isInfix

theorem includes_trans {s t u : String} (h1 : includes s t) (h2 : includes t u) :
    includes s u := by
  unfold includes at *
  exact List.IsInfix.trans h2 h1

theorem http_ne_network (rest : String) : "HTTP错误 " ++ rest ≠ "网络错误" := by
  intro h
  have h2 := congrArg String.data h
  rw [String.data_append] at h2
  have h3 := congrArg List.head? h2
  rw [List.head?_append_of_ne_nil _ (by decide)] at h3
  revert h3
  decide

/-! ## Properties of `checkAirdrop` -/

theorem checkAirdrop_of_reject (env : Env) (i : Nat) (a : String) (rm : RequestManager)
    (error : JsError) (h : env.simpleRequest i rm (airdropRequest a) = .error error) :
    checkAirdrop env i (some a) rm = .ok (.failure (errorMessageOf error)) := by
  simp only [checkAirdrop, h]

/-- C6, counterexample: a request rejected with status code 429 and the empty
string as response body (or with the body `false`) gives the message
`HTTP错误 429`, which contains `429` but not `JSON.stringify` of the body. -/
theorem checkAirdrop_falsy_body_omitted :
    checkAirdrop (rejectingEnv (httpError 429 (some (.str "")))) 0 (some "0xabc") { proxy := none }
      = .ok (.failure (some "HTTP错误 429")) ∧
    includes "HTTP错误 429" "429" ∧
    ¬ includes "HTTP错误 429" (Json.stringify (.str "")) ∧
    checkAirdrop (rejectingEnv (httpError 429 (some (.bool false)))) 0 (some "0xabc")
        { proxy := none }
      = .ok (.failure (some "HTTP错误 429")) ∧
    ¬ includes "HTTP错误 429" (Json.stringify (.bool false)) := by
  refine ⟨rfl, by decide, by decide, rfl, by decide⟩

/-- C6, amended: when the request rejects with an error whose status code is
not zero, `checkAirdrop` returns a failure whose message contains the decimal
status code; when the response body of the error is truthy the message also
contains `JSON.stringify` of it, and when the body is falsy (absent, `null`,
`false`, `0` or the empty string) the message is the status code line alone. -/
theorem checkAirdrop_http_error (env : Env) (i : Nat) (a : String) (rm : RequestManager)
    (error : JsError) (code : Nat)
    (hreq : env.simpleRequest i rm (airdropRequest a) = .error error)
    (hcode : error.statusCode = some code) (hne : code ≠ 0) :
    ∃ msg : String, checkAirdrop env i (some a) rm = .ok (.failure (some msg)) ∧
      includes msg (toString code) ∧
      (∀ body : Json, error.responseData = some body → truthy (some body) = true →
        includes msg body.stringify) ∧
      (truthy error.responseData = false → msg = "HTTP错误 " ++ toString code) := by
  rw [checkAirdrop_of_reject env i a rm error hreq]
  have hc : truthyNumber error.statusCode = true := by simp [truthyNumber, hcode, hne]
  cases hb : truthy error.responseData
  · refine ⟨"HTTP错误 " ++ toString code, ?_, includes_append_right _ _, ?_, fun _ => rfl⟩
    · simp [errorMessageOf, hc, hb]
      simp [hcode]
    · intro body hbody ht
      rw [hbody, ht] at hb
      exact Bool.noConfusion hb
  · cases hd : error.responseData with
    | none => rw [hd] at hb; exact Bool.noConfusion hb
    | some body =>
      refine ⟨"HTTP错误 " ++ toString code ++ ": " ++ body.stringify, ?_, ?_, ?_, ?_⟩
      · simp [errorMessageOf, hc, hb]
        simp [hcode, hd]
      · exact includes_trans (includes_append_left _ _)
          (includes_trans (includes_append_left _ _) (includes_append_right _ _))
      · intro body2 hbody _
        cases hbody
        exact includes_append_right _ _
      · intro hf
        exact Bool.noConfusion hf

/-- Witness for C6 (amended): status code 429 with the body `{"retry":30}`. -/
theorem checkAirdrop_http_error_witness :
    ∃ msg : String,
      checkAirdrop (rejectingEnv (httpError 429 (some (.obj [("retry", .num 30)])))) 0
          (some "0xabc") { proxy := none } = .ok (.failure (some msg)) ∧
      includes msg (toString 429) ∧
      (∀ body : Json, some (Json.obj [("retry", .num 30)]) = some body →
        truthy (some body) = true → includes msg body.stringify) ∧
      (truthy (some (Json.obj [("retry", .num 30)])) = false →
        msg = "HTTP错误 " ++ toString 429) :=
  checkAirdrop_http_error _ 0 "0xabc" { proxy := none }
    (httpError 429 (some (.obj [("retry", .num 30)]))) 429 rfl rfl (by decide)

/-- C7, counterexample: an error with `isNetworkError = true` that also carries
the status code 502 is reported as the HTTP error `HTTP错误 502`, not with the
network-error message. -/
theorem checkAirdrop_network_flag_with_status :
    checkAirdrop (rejectingEnv { httpError 502 none with isNetworkError := true }) 0
        (some "0xabc") { proxy := none }
      = .ok (.failure (some "HTTP错误 502")) ∧
    ("HTTP错误 502" : String) ≠ "网络错误" := by
  refine ⟨rfl, by decide⟩

/-- C7, amended: when the request rejects with an error that has
`isNetworkError = true` and no non-zero status code, `checkAirdrop` returns a
failure whose message is the fixed text `网络错误`; and the failure returned for
every error with a non-zero status code, with or without a body, carries a
different message. -/
theorem checkAirdrop_network_error (env : Env) (i : Nat) (a : String) (rm : RequestManager)
    (error : JsError)
    (hreq : env.simpleRequest i rm (airdropRequest a) = .error error)
    (hnet : error.isNetworkError = true) (hcode : truthyNumber error.statusCode = false) :
    checkAirdrop env i (some a) rm = .ok (.failure (some "网络错误")) ∧
    ∀ (env2 : Env) (j : Nat) (b : String) (rm2 : RequestManager) (http : JsError),
      env2.simpleRequest j rm2 (airdropRequest b) = .error http →
      truthyNumber http.statusCode = true →
      checkAirdrop env2 j (some b) rm2 ≠ .ok (.failure (some "网络错误")) := by
  constructor
  · rw [checkAirdrop_of_reject env i a rm error hreq]
    simp [errorMessageOf, hcode, hnet]
  · intro env2 j b rm2 http hreq2 hs
    rw [checkAirdrop_of_reject env2 j b rm2 http hreq2]
    intro h
    have hmsg : errorMessageOf http = some "网络错误" :=
      AirdropResult.failure.inj (Except.ok.inj h)
    unfold errorMessageOf at hmsg
    simp only [hs, ↓reduceIte] at hmsg
    split at hmsg
    · have h2 := Option.some.inj hmsg
      rw [String.append_assoc, String.append_assoc] at h2
      exact http_ne_network _ h2
    · exact http_ne_network _ (Option.some.inj hmsg)

/-- Witness for C7 (amended): a bare network error. -/
theorem checkAirdrop_network_error_witness :
    checkAirdrop (rejectingEnv networkError) 3 (some "0xabc")
        { proxy := some "http://127.0.0.1:8080" } = .ok (.failure (some "网络错误")) ∧
    ∀ (env2 : Env) (j : Nat) (b : String) (rm2 : RequestManager) (http : JsError),
      env2.simpleRequest j rm2 (airdropRequest b) = .error http →
      truthyNumber http.statusCode = true →
      checkAirdrop env2 j (some b) rm2 ≠ .ok (.failure (some "网络错误")) :=
  checkAirdrop_network_error _ 3 "0xabc" { proxy := some "http://127.0.0.1:8080" }
    networkError rfl rfl rfl

/-! ## Lemmas on Numbers -/

theorem roundHalfEven_ge (n d : Nat) : n / d ≤ roundHalfEven n d := by
  unfold roundHalfEven
  dsimp only
  split_ifs <;> omega

theorem two_pow_excessBits_le : ∀ (fuel q : Nat), 1 ≤ q → 2 ^ excessBits fuel q ≤ q
  | 0, q, h => by simpa [excessBits] using h
  | fuel + 1, q, h => by
    unfold excessBits
    split_ifs with hq
    · simpa using h
    · have hq2 : 1 ≤ q / 2 := by
        have h53 : (2 : Nat) ≤ 2 ^ 53 := by decide
        have : 2 ≤ q := le_trans h53 (not_lt.1 hq)
        omega
      have ih := two_pow_excessBits_le fuel (q / 2) hq2
      rw [pow_succ]
      omega

theorem roundUnits_pos (n : Nat) (hn : 1 ≤ n) : 1 ≤ roundUnits n 1 := by
  unfold roundUnits
  simp only [Nat.div_one, one_mul]
  have h := two_pow_excessBits_le n n hn
  have h2 : 1 ≤ n / 2 ^ excessBits n n := Nat.div_pos h (pow_pos (by decide) _)
  have h3 := roundHalfEven_ge n (2 ^ excessBits n n)
  have h4 : 1 ≤ 2 ^ excessBits n n := Nat.one_le_two_pow
  exact Nat.mul_pos (le_trans h2 h3) h4

theorem roundUnits_zero : roundUnits 0 1 = 0 := by decide

theorem roundToNumber_ne_nan (s : Bool) (n d : Nat) : roundToNumber s n d ≠ .nan := by
  unfold roundToNumber
  dsimp only
  split_ifs <;> exact fun h => JSNumber.noConfusion h

theorem isPositive_roundToNumber (s : Bool) (n : Nat) :
    (roundToNumber s n 1).isPositive = (!s && decide (n ≠ 0)) := by
  unfold roundToNumber
  dsimp only
  rcases Nat.eq_zero_or_pos n with h0 | hpos
  · subst h0
    have hsmall : ¬ 2 ^ 2098 ≤ 0 := Nat.not_le.2 (pow_pos (by decide) _)
    rw [roundUnits_zero, if_neg hsmall]
    cases s <;> rfl
  · have hk := roundUnits_pos n hpos
    have hn : n ≠ 0 := by omega
    have hk0 : roundUnits n 1 ≠ 0 := by omega
    by_cases hbig : 2 ^ 2098 ≤ roundUnits n 1
    · rw [if_pos hbig]
      simp [JSNumber.isPositive, hn]
    · rw [if_neg hbig]
      simp [JSNumber.isPositive, hn, hk0]

theorem isPositive_sub (x y : JSNumber) (hx : x ≠ .nan) (hy : y ≠ .nan) :
    (x.sub y).isPositive = !(x.le y) := by
  cases x with
  | nan => exact absurd rfl hx
  | inf s =>
    cases y with
    | nan => exact absurd rfl hy
    | inf t => cases s <;> cases t <;> rfl
    | fin t b => cases s <;> rfl
  | fin s a =>
    cases y with
    | nan => exact absurd rfl hy
    | inf t => cases s <;> cases t <;> rfl
    | fin t b =>
      simp only [JSNumber.sub, JSNumber.neg, JSNumber.add, JSNumber.le]
      cases s <;> cases t <;>
        simp only [Bool.not_true, Bool.not_false, ↓reduceIte, reduceCtorEq] <;>
        (try split_ifs) <;>
        (try rw [isPositive_roundToNumber]) <;>
        first
          | (simp [JSNumber.isPositive]; done)
          | (simp [JSNumber.isPositive]; omega)
          | (rw [Bool.eq_iff_iff]; simp; omega)

theorem le_refl_of_ne_nan (x : JSNumber) (hx : x ≠ .nan) : x.le x = true := by
  cases x with
  | nan => exact absurd rfl hx
  | inf s => cases s <;> rfl
  | fin s a => simp [JSNumber.le]

theorem le_total_of_ne_nan (x y : JSNumber) (hx : x ≠ .nan) (hy : y ≠ .nan) :
    x.le y = true ∨ y.le x = true := by
  cases x with
  | nan => exact absurd rfl hx
  | inf s =>
    cases y with
    | nan => exact absurd rfl hy
    | inf t => cases s <;> cases t <;> simp [JSNumber.le]
    | fin t b => cases s <;> simp [JSNumber.le]
  | fin s a =>
    cases y with
    | nan => exact absurd rfl hy
    | inf t => cases t <;> simp [JSNumber.le]
    | fin t b =>
      simp only [JSNumber.le, decide_eq_true_eq]
      exact le_total _ _

theorem le_trans_number (x y z : JSNumber) (h1 : x.le y = true) (h2 : y.le z = true) :
    x.le z = true := by
  cases x with
  | nan => simp [JSNumber.le] at h1
  | inf s =>
    cases y with
    | nan => simp [JSNumber.le] at h1
    | inf t =>
      cases z with
      | nan => simp [JSNumber.le] at h2
      | inf u => cases s <;> cases t <;> cases u <;> simp_all [JSNumber.le]
      | fin u c => cases s <;> cases t <;> simp_all [JSNumber.le]
    | fin t b =>
      cases z with
      | nan => simp [JSNumber.le] at h2
      | inf u => cases s <;> cases u <;> simp_all [JSNumber.le]
      | fin u c => cases s <;> simp_all [JSNumber.le]
  | fin s a =>
    cases y with
    | nan => simp [JSNumber.le] at h1
    | inf t =>
      cases z with
      | nan => simp [JSNumber.le] at h2
      | inf u => cases t <;> cases u <;> simp_all [JSNumber.le]
      | fin u c => cases t <;> simp_all [JSNumber.le]
    | fin t b =>
      cases z with
      | nan => simp [JSNumber.le] at h2
      | inf u => cases u <;> simp_all [JSNumber.le]
      | fin u c =>
        simp only [JSNumber.le, decide_eq_true_eq] at *
        exact le_trans h1 h2

/-! ## Lemmas on the sort -/

theorem mem_insertByDifference (a x : JSNumber) (ys : List JSNumber) :
    a ∈ insertByDifference x ys ↔ a = x ∨ a ∈ ys := by
  induction ys with
  | nil => simp [insertByDifference]
  | cons y ys ih =>
    unfold insertByDifference
    split_ifs
    · simp only [List.mem_cons, ih]
      tauto
    · simp only [List.mem_cons]

theorem mem_sortByDifference (a : JSNumber) (xs : List JSNumber) :
    a ∈ sortByDifference xs ↔ a ∈ xs := by
  induction xs with
  | nil => simp [sortByDifference]
  | cons x xs ih =>
    show a ∈ insertByDifference x (sortByDifference xs) ↔ _
    rw [mem_insertByDifference, ih, List.mem_cons]

theorem length_insertByDifference (x : JSNumber) (ys : List JSNumber) :
    (insertByDifference x ys).length = ys.length + 1 := by
  induction ys with
  | nil => rfl
  | cons y ys ih =>
    unfold insertByDifference
    split_ifs
    · simp only [List.length_cons, ih]
    · simp only [List.length_cons]

theorem length_sortByDifference (xs : List JSNumber) :
    (sortByDifference xs).length = xs.length := by
  induction xs with
  | nil => rfl
  | cons x xs ih =>
    show (insertByDifference x (sortByDifference xs)).length = _
    rw [length_insertByDifference, ih, List.length_cons]

theorem pairwise_insertByDifference (x : JSNumber) (ys : List JSNumber) (hx : x ≠ .nan)
    (hys : ∀ y ∈ ys, y ≠ .nan) (hsorted : ys.Pairwise (fun a b => a.le b = true)) :
    (insertByDifference x ys).Pairwise (fun a b => a.le b = true) := by
  induction ys with
  | nil => simp [insertByDifference]
  | cons y ys ih =>
    have hy : y ≠ .nan := hys y (List.mem_cons_self _ _)
    have hrest : ∀ z ∈ ys, z ≠ .nan := fun z hz => hys z (List.mem_cons_of_mem _ hz)
    obtain ⟨hy_le, hsorted2⟩ := List.pairwise_cons.1 hsorted
    unfold insertByDifference
    rw [isPositive_sub x y hx hy]
    cases hle : x.le y
    · have hyx : y.le x = true := by
        rcases le_total_of_ne_nan x y hx hy with h | h
        · rw [hle] at h
          exact Bool.noConfusion h
        · exact h
      simp only [Bool.not_false, ↓reduceIte]
      refine List.pairwise_cons.2 ⟨?_, ih hrest hsorted2⟩
      intro z hz
      rcases (mem_insertByDifference z x ys).1 hz with h | h
      · rw [h]
        exact hyx
      · exact hy_le z h
    · simp only [Bool.not_true, Bool.false_eq_true, ↓reduceIte]
      refine List.pairwise_cons.2 ⟨?_, hsorted⟩
      intro z hz
      rcases List.mem_cons.1 hz with h | h
      · rw [h]
        exact hle
      · exact le_trans_number x y z hle (hy_le z h)

theorem pairwise_sortByDifference (xs : List JSNumber) (hxs : ∀ x ∈ xs, x ≠ .nan) :
    (sortByDifference xs).Pairwise (fun a b => a.le b = true) := by
  induction xs with
  | nil => exact List.Pairwise.nil
  | cons x xs ih =>
    show (insertByDifference x (sortByDifference xs)).Pairwise _
    apply pairwise_insertByDifference
    · exact hxs x (List.mem_cons_self _ _)
    · intro y hy
      exact hxs y (List.mem_cons_of_mem _ ((mem_sortByDifference y xs).1 hy))
    · exact ih (fun y hy => hxs y (List.mem_cons_of_mem _ hy))

theorem headD_le_of_pairwise (xs : List JSNumber) (d : JSNumber) (hne : xs ≠ [])
    (hxs : ∀ x ∈ xs, x ≠ .nan) (hsorted : xs.Pairwise (fun a b => a.le b = true)) :
    xs.headD d ∈ xs ∧ ∀ a ∈ xs, (xs.headD d).le a = true := by
  cases xs with
  | nil => exact absurd rfl hne
  | cons x rest =>
    refine ⟨List.mem_cons_self _ _, fun a ha => ?_⟩
    rcases List.mem_cons.1 ha with h | h
    · rw [h]
      exact le_refl_of_ne_nan x (hxs x (List.mem_cons_self _ _))
    · exact (List.pairwise_cons.1 hsorted).1 a h

theorem getLastD_ge_of_pairwise (xs : List JSNumber) (d : JSNumber) (hne : xs ≠ [])
    (hxs : ∀ x ∈ xs, x ≠ .nan) (hsorted : xs.Pairwise (fun a b => a.le b = true)) :
    xs.getLastD d ∈ xs ∧ ∀ a ∈ xs, a.le (xs.getLastD d) = true := by
  induction xs generalizing d with
  | nil => exact absurd rfl hne
  | cons x rest ih =>
    cases rest with
    | nil =>
      refine ⟨List.mem_cons_self _ _, fun a ha => ?_⟩
      rcases List.mem_cons.1 ha with h | h
      · rw [h]
        exact le_refl_of_ne_nan x (hxs x (List.mem_cons_self _ _))
      · cases h
    | cons y rest2 =>
      obtain ⟨hx_le, hsorted2⟩ := List.pairwise_cons.1 hsorted
      obtain ⟨hmem, hall⟩ := ih x (List.cons_ne_nil _ _)
        (fun z hz => hxs z (List.mem_cons_of_mem _ hz)) hsorted2
      have hlast : (x :: y :: rest2).getLastD d = (y :: rest2).getLastD x := by
        simp [List.getLastD]
      rw [hlast]
      refine ⟨List.mem_cons_of_mem _ hmem, fun a ha => ?_⟩
      rcases List.mem_cons.1 ha with h | h
      · rw [h]
        exact hx_le _ hmem
      · exact hall a h

/-! ## Lemmas on `parseInt` and `formatAmount` -/

theorem isDigit_iff (c : Char) : c.isDigit = true ↔ 48 ≤ c.toNat ∧ c.toNat ≤ 57 := by
  simp only [Char.isDigit, ge_iff_le, Bool.and_eq_true, decide_eq_true_eq, Char.toNat]
  constructor
  · rintro ⟨h1, h2⟩
    exact ⟨h1, h2⟩
  · rintro ⟨h1, h2⟩
    exact ⟨h1, h2⟩

theorem isStrWhiteSpaceChar_of_isDigit (c : Char) (h : c.isDigit = true) :
    isStrWhiteSpaceChar c = false := by
  obtain ⟨h1, h2⟩ := (isDigit_iff c).1 h
  unfold isStrWhiteSpaceChar
  simp only [Bool.or_eq_false_iff, decide_eq_false_iff_not, Bool.and_eq_false_imp,
    decide_eq_true_eq]
  omega

theorem takeWhile_isDigit_of_all (cs : List Char) (h : cs.all Char.isDigit = true) :
    cs.takeWhile Char.isDigit = cs := by
  rw [List.takeWhile_eq_self_iff]
  intro c hc
  exact List.all_eq_true.1 h c hc

theorem parseInt_integer (raw : JsValue) (h : isIntegerAmount raw = true) :
    ∃ x : JSNumber, parseInt raw = .ok x ∧ x ≠ .nan := by
  unfold isIntegerAmount isIntegerText at h
  simp only [Bool.and_eq_true, Bool.not_eq_true', List.isEmpty_eq_false] at h
  obtain ⟨hne, hall⟩ := h
  have hdrop : (jsToString raw).data.dropWhile isStrWhiteSpaceChar = (jsToString raw).data := by
    cases ht : (jsToString raw).data with
    | nil => rfl
    | cons c rest =>
      rw [ht] at hne hall
      have hc : isStrWhiteSpaceChar c = false := by
        by_cases hminus : c = '-'
        · rw [hminus]
          decide
        · by_cases hplus : c = '+'
          · rw [hplus]
            decide
          · simp only [splitSign, if_neg hminus, if_neg hplus] at hall
            exact isStrWhiteSpaceChar_of_isDigit c
              (List.all_eq_true.1 hall c (List.mem_cons_self _ _))
      rw [List.dropWhile_cons, hc]
      rfl
  refine ⟨roundToNumber (splitSign (jsToString raw).data).1
    (digitsValue (splitSign (jsToString raw).data).2 * 2 ^ 1074) 1, ?_,
    roundToNumber_ne_nan _ _ _⟩
  unfold parseInt
  simp only [hdrop, takeWhile_isDigit_of_all _ hall]
  cases hb : (splitSign (jsToString raw).data).2 with
  | nil => exact absurd hb hne
  | cons d ds => rfl

theorem parseInt_never_raises (raw : JsValue) : ∃ x : JSNumber, parseInt raw = .ok x := by
  unfold parseInt
  dsimp only
  split_ifs
  · exact ⟨_, rfl⟩
  · exact ⟨_, rfl⟩

theorem nan_div (y : JSNumber) : JSNumber.nan.div y = .nan := by
  cases y <;> rfl

theorem formatAmount_of_nan (raw : JsValue) (h : parseInt raw = .ok .nan) :
    formatAmount raw = .nan := by
  simp only [formatAmount, h]
  exact nan_div _

theorem ofNat_million : JSNumber.ofNat 1000000 = .fin false (1000000 * 2 ^ 1074) := by
  decide!

theorem div_million_ne_nan (x : JSNumber) (hx : x ≠ .nan) :
    x.div (JSNumber.ofNat 1000000) ≠ .nan := by
  rw [ofNat_million]
  cases x with
  | nan => exact absurd rfl hx
  | inf s => exact fun h => JSNumber.noConfusion h
  | fin s a =>
    have hpos : 1000000 * 2 ^ 1074 ≠ 0 := Nat.mul_ne_zero (by decide) (pow_ne_zero _ (by decide))
    simp only [JSNumber.div, if_neg hpos]
    exact roundToNumber_ne_nan _ _ _

theorem formatAmount_integer (raw : JsValue) (h : isIntegerAmount raw = true) :
    ∃ x : JSNumber, parseInt raw = .ok x ∧ x ≠ .nan ∧
      formatAmount raw = x.div (JSNumber.ofNat 1000000) ∧ formatAmount raw ≠ .nan := by
  obtain ⟨x, hp, hx⟩ := parseInt_integer raw h
  have hf : formatAmount raw = x.div (JSNumber.ofNat 1000000) := by
    simp only [formatAmount, hp]
  exact ⟨x, hp, hx, hf, by rw [hf]; exact div_million_ne_nan x hx⟩

/-- Number arithmetic rounds each step: the amounts `100000` and `200000` add up
to `0.30000000000000004`, one unit in the last place above the amount `0.3`
that `300000` formats to. -/
theorem formatAmount_sum_rounds :
    (formatAmount (some (.str "100000"))).add (formatAmount (some (.str "200000")))
      = .fin false (0x13333333333334 * 2 ^ 1020) ∧
    formatAmount (some (.str "300000")) = .fin false (0x13333333333333 * 2 ^ 1020) := by
  decide!

/-! ## The loop of `main` -/

theorem recordFailure_recordedOne (st : RunState) (record : Record) (error : Option String) :
    RecordedOne record st (recordFailure st record record.add error) := by
  refine ⟨rfl, errorRow record record.add error, rfl, rfl, Or.inr ⟨rfl, rfl, rfl, rfl, rfl⟩⟩

theorem getProperty_ok {data raw : JsValue} {key : String}
    (h : getProperty data key = .ok raw) : raw = lookupProperty data key := by
  unfold getProperty at h
  split at h
  · exact Except.noConfusion h
  · exact Except.noConfusion h
  · exact (Except.ok.inj h).symm

theorem tryRecord_recordedOne (env : Env) (i : Nat) (record : Record) (rm : RequestManager)
    (st : RunState) :
    RecordedOne record st (tryRecord env i record rm st) ∧
    (tryRecord env i record rm st).effects = st.effects ++ requestEffects i record.add rm := by
  show RecordedOne record { st with effects := st.effects ++ requestEffects i record.add rm }
      (tryRecord env i record rm st) ∧ _
  unfold tryRecord
  dsimp only
  cases checkAirdrop env i record.add rm with
  | error e => exact ⟨recordFailure_recordedOne _ _ _, rfl⟩
  | ok result =>
    cases result with
    | failure e => exact ⟨recordFailure_recordedOne _ _ _, rfl⟩
    | success data =>
      dsimp only
      cases hg : getProperty data "amount" with
      | error e => exact ⟨recordFailure_recordedOne _ _ _, rfl⟩
      | ok raw =>
        have hraw := getProperty_ok hg
        subst hraw
        refine ⟨⟨rfl, successRow record record.add
          (formatAmount (lookupProperty data "amount")) data, rfl, rfl,
          Or.inl ⟨rfl, rfl, rfl, rfl, rfl⟩⟩, rfl⟩

theorem processRecord_ok_inv (env : Env) (i : Nat) (record : Record) (st st2 : RunState)
    (h : processRecord env i record st = .ok st2) : RecordedOne record st st2 := by
  unfold processRecord at h
  cases hrm : env.newRequestManager record.proxy with
  | error e =>
    rw [hrm] at h
    exact Except.noConfusion h
  | ok rm =>
    rw [hrm] at h
    dsimp only at h
    have h2 := Except.ok.inj h
    rw [← h2]
    by_cases hi : i > 0
    · rw [if_pos hi]
      exact (tryRecord_recordedOne env i record rm _).1
    · rw [if_neg hi]
      exact (tryRecord_recordedOne env i record rm _).1

theorem processRecord_ok_of_built (env : Env) (i : Nat) (record : Record) (st : RunState)
    (rm : RequestManager) (h : env.newRequestManager record.proxy = .ok rm) :
    ∃ st2, processRecord env i record st = .ok st2 := by
  unfold processRecord
  rw [h]
  exact ⟨_, rfl⟩

theorem successRaws_cons (row : ResultRow) (rows : List ResultRow) :
    successRaws (row :: rows) =
      if row.status = "success" then row.amount_raw :: successRaws rows else successRaws rows := by
  unfold successRaws
  by_cases h : row.status = "success"
  · simp [List.filter_cons, h]
  · simp [List.filter_cons, h]

theorem processRecords_ok_of_built (env : Env) (records : List Record) :
    ∀ (i : Nat) (st : RunState),
      (∀ r ∈ records, ∃ rm, env.newRequestManager r.proxy = .ok rm) →
      ∃ st2, processRecords env i records st = .ok st2 := by
  induction records with
  | nil => exact fun i st _ => ⟨st, rfl⟩
  | cons record rest ih =>
    intro i st hctor
    obtain ⟨rm, hrm⟩ := hctor record (List.mem_cons_self _ _)
    obtain ⟨st1, h1⟩ := processRecord_ok_of_built env i record st rm hrm
    obtain ⟨st2, h2⟩ := ih (i + 1) st1 (fun r hr => hctor r (List.mem_cons_of_mem _ hr))
    exact ⟨st2, by simp only [processRecords, h1, h2]⟩

theorem processRecords_ok_inv (env : Env) (records : List Record) :
    ∀ (i : Nat) (st st2 : RunState), processRecords env i records st = .ok st2 →
      ∃ rows, RecordedAll records rows st st2 := by
  induction records with
  | nil =>
    intro i st st2 h
    have h2 : st = st2 := Except.ok.inj h
    subst h2
    exact ⟨[], by simp [RecordedAll, successRaws, successAmounts]⟩
  | cons record rest ih =>
    intro i st st2 h
    simp only [processRecords] at h
    cases h1 : processRecord env i record st with
    | error e =>
      rw [h1] at h
      exact Except.noConfusion h
    | ok st1 =>
      rw [h1] at h
      dsimp only at h
      obtain ⟨htot, row, hres, hkey, hcase⟩ := processRecord_ok_inv env i record st st1 h1
      obtain ⟨rows, r1, r2, r3, r4, r5, r6, r7⟩ := ih (i + 1) st1 st2 h
      refine ⟨row :: rows, ?_, ?_, ?_, ?_, ?_, ?_, ?_⟩
      · rw [r1, hres, List.append_assoc, List.singleton_append]
      · simp only [List.map_cons, hkey, r2]
      · rw [r3, htot]
      · rcases hcase with ⟨hs, c1, c2, c3, c4⟩ | ⟨hs, c1, c2, c3, c4⟩
        · rw [r4, c1, successRaws_cons, if_pos hs, List.length_cons]
          omega
        · rw [r4, c1, successRaws_cons, if_neg (by rw [hs]; decide)]
      · rcases hcase with ⟨hs, c1, c2, c3, c4⟩ | ⟨hs, c1, c2, c3, c4⟩
        · rw [r5, c1, c2, List.length_cons]
          omega
        · rw [r5, c1, c2, List.length_cons]
          omega
      · rcases hcase with ⟨hs, c1, c2, c3, c4⟩ | ⟨hs, c1, c2, c3, c4⟩
        · rw [r6, c3]
          simp only [successAmounts, successRaws_cons, if_pos hs, List.map_cons,
            List.append_assoc, List.singleton_append]
        · rw [r6, c3]
          simp only [successAmounts, successRaws_cons, if_neg (show ¬ row.status = "success" by
            rw [hs]; decide)]
      · rcases hcase with ⟨hs, c1, c2, c3, c4⟩ | ⟨hs, c1, c2, c3, c4⟩
        · rw [r7, c4]
          simp only [successAmounts, successRaws_cons, if_pos hs, List.map_cons,
            List.foldl_cons]
        · rw [r7, c4]
          simp only [successAmounts, successRaws_cons, if_neg (show ¬ row.status = "success" by
            rw [hs]; decide)]

/-- What a completed run of `main` over `records` returned. -/
theorem main_completed_inv (env : Env) (records : List Record) (stats : Stats)
    (results : List ResultRow) (summary : Summary) (effects : List Effect)
    (hrun : main env (.ok records) = .completed stats results summary effects) :
    Effect.writeCSV "initia_result.csv" results ∈ effects ∧
    results.map ResultRow.key = records.map Record.key ∧
    stats.totalAddresses = records.length ∧
    stats.successCount = (successRaws results).length ∧
    stats.successCount + stats.failCount = records.length ∧
    stats.amounts = sortByDifference (successAmounts results) ∧
    stats.totalAmount = (successAmounts results).foldl JSNumber.add (JSNumber.ofNat 0) ∧
    summary = summarize (sortByDifference (successAmounts results)) stats.totalAmount := by
  simp only [main, readCSV] at hrun
  by_cases hlen : records.length = 0
  · rw [if_pos hlen] at hrun
    exact MainOutcome.noConfusion hrun
  · rw [if_neg hlen] at hrun
    cases hp : processRecords env 0 records
        { stats := { totalAddresses := records.length, successCount := 0, failCount := 0,
                     totalAmount := JSNumber.ofNat 0, amounts := [] },
          results := [], effects := [] } with
    | error e =>
      rw [hp] at hrun
      exact MainOutcome.noConfusion hrun
    | ok st2 =>
      rw [hp] at hrun
      dsimp only at hrun
      obtain ⟨rows, r1, r2, r3, r4, r5, r6, r7⟩ := processRecords_ok_inv env records 0 _ st2 hp
      simp only [List.nil_append, Nat.zero_add] at r1 r3 r4 r5 r6 r7
      injection hrun with e1 e2 e3 e4
      subst e1 e2 e3 e4
      refine ⟨by simp, ?_, r3, ?_, r5, ?_, ?_, ?_⟩
      · rw [r1]; exact r2
      · rw [r1]; exact r4
      · simp only [r1, r6]
      · simp only [r1, r7]
      · simp only [r1, r6]

/-- A run of `main` over a non-empty batch in which every transport handle
is built reaches the end. -/
theorem main_completed (env : Env) (records : List Record) (hne : records ≠ [])
    (hctor : ∀ r ∈ records, ∃ rm, env.newRequestManager r.proxy = .ok rm) :
    ∃ stats results summary effects,
      main env (.ok records) = .completed stats results summary effects := by
  have hlen : ¬ records.length = 0 := fun h => hne (List.length_eq_zero.1 h)
  obtain ⟨st2, h2⟩ := processRecords_ok_of_built env records 0
      { stats := { totalAddresses := records.length, successCount := 0, failCount := 0,
                   totalAmount := JSNumber.ofNat 0, amounts := [] },
        results := [], effects := [] } hctor
  refine ⟨{ st2.stats with amounts := sortByDifference st2.stats.amounts }, st2.results,
    summarize (sortByDifference st2.stats.amounts) st2.stats.totalAmount,
    st2.effects ++ [.writeCSV "initia_result.csv" st2.results], ?_⟩
  simp only [main, readCSV, if_neg hlen, h2]

/-! ## Properties of `main` -/

/-- C1: for every batch of `N ≥ 1` records and every outcome of each record's
request (a response, an error with a status code, a network error, any other
error), in a run where each record obtains its transport handle, `main` reaches
`writeCSV` and hands it exactly `N` rows, and the `i`-th row carries the `num`,
`pk` and address of the `i`-th record. -/
theorem main_rows_match_records (env : Env) (records : List Record) (hne : records ≠ [])
    (hctor : ∀ r ∈ records, ∃ rm, env.newRequestManager r.proxy = .ok rm) :
    ∃ stats results summary effects,
      main env (.ok records) = .completed stats results summary effects ∧
      Effect.writeCSV "initia_result.csv" results ∈ effects ∧
      results.length = records.length ∧
      ∀ (i : Nat) (record : Record), records[i]? = some record →
        ∃ row, results[i]? = some row ∧
          row.num = record.num ∧ row.pk = record.pk ∧ row.address = record.add := by
  obtain ⟨stats, results, summary, effects, hmain⟩ := main_completed env records hne hctor
  obtain ⟨hw, hkey, -⟩ := main_completed_inv env records stats results summary effects hmain
  refine ⟨stats, results, summary, effects, hmain, hw, ?_, ?_⟩
  · have := congrArg List.length hkey
    simpa using this
  · intro i record hi
    have h1 : (results.map ResultRow.key)[i]? = some record.key := by
      rw [hkey, List.getElem?_map, hi]
      rfl
    rw [List.getElem?_map] at h1
    cases hr : results[i]? with
    | none => rw [hr] at h1; exact Option.noConfusion h1
    | some row =>
      rw [hr] at h1
      have h2 : row.key = record.key := Option.some.inj h1
      simp only [ResultRow.key, Record.key, Prod.mk.injEq] at h2
      exact ⟨row, rfl, h2.1, h2.2.1, h2.2.2⟩

/-- Witness for C1: three records, answered by a response, by `undefined` and
by a response without amount. -/
theorem main_rows_match_records_witness :
    ∃ stats results summary effects,
      main (answeringEnv [amountResponse "1000000", none, some (.obj [])])
        (.ok [sampleRecord "1" "0xAB" "", sampleRecord "2" "cd" "", sampleRecord "3" "0xef" ""])
        = .completed stats results summary effects ∧
      Effect.writeCSV "initia_result.csv" results ∈ effects ∧
      results.length =
        [sampleRecord "1" "0xAB" "", sampleRecord "2" "cd" "", sampleRecord "3" "0xef" ""].length ∧
      ∀ (i : Nat) (record : Record),
        [sampleRecord "1" "0xAB" "", sampleRecord "2" "cd" "", sampleRecord "3" "0xef" ""][i]?
          = some record →
        ∃ row, results[i]? = some row ∧
          row.num = record.num ∧ row.pk = record.pk ∧ row.address = record.add :=
  main_rows_match_records _ _ (by decide) (fun r _ => ⟨{ proxy := r.proxy }, rfl⟩)

/-- An exception raised inside the `try` is caught: a record without `add`
column makes `address.toLowerCase()` raise, and the run still writes one row
per record, the first with status `error`. -/
theorem main_catches_missing_address :
    (writtenRows (main (answeringEnv [none, amountResponse "1000000"])
      (.ok [{ num := some "1", pk := some "k", add := none, proxy := none },
            sampleRecord "2" "0xcd" ""]))).map (List.map (fun row => row.status))
      = some ["error", "success"] := by
  decide!

/-- C2, the failing run: in a batch of three records whose second proxy makes
`new RequestManager(proxy)` raise, the exception is not caught by the loop:
`main` rejects, nothing is handed to `writeCSV`, the third record is never
processed (the run stops after one handle built and one request sent) and the
process exits with status 1. -/
theorem main_aborts_on_constructor_error :
    exitStatus (main (strictProxyEnv (amountResponse "1000000"))
      (.ok [sampleRecord "1" "0xab" "", sampleRecord "2" "0xcd" "not-a-proxy-url",
            sampleRecord "3" "0xef" ""])) = 1 ∧
    (writtenRows (main (strictProxyEnv (amountResponse "1000000"))
      (.ok [sampleRecord "1" "0xab" "", sampleRecord "2" "0xcd" "not-a-proxy-url",
            sampleRecord "3" "0xef" ""]))).isNone = true ∧
    transportActions (main (strictProxyEnv (amountResponse "1000000"))
      (.ok [sampleRecord "1" "0xab" "", sampleRecord "2" "0xcd" "not-a-proxy-url",
            sampleRecord "3" "0xef" ""])) = 2 := by
  decide!

/-- C3, the failing input: `formatAmount("abc")` is `NaN`, not `0` (`parseInt`
returns `NaN` instead of raising, so the `catch` branch is never taken); the
record is recorded with status `success`, and `totalAmount` becomes `NaN`. -/
theorem formatAmount_nonnumeric_is_nan :
    formatAmount (some (.str "abc")) = .nan ∧
    formatAmount (some (.str "abc")) ≠ JSNumber.ofNat 0 ∧
    (writtenRows (main (answeringEnv [amountResponse "abc"])
      (.ok [sampleRecord "1" "0xab" ""]))).map (List.map (fun row => row.status))
      = some ["success"] ∧
    (finalStats (main (answeringEnv [amountResponse "abc"])
      (.ok [sampleRecord "1" "0xab" ""]))).map (fun stats => stats.totalAmount) = some .nan := by
  decide!

/-- C4, counterexample: with zero records `main` returns and the process ends
with exit status 0, not with a non-zero status. -/
theorem main_zero_records_exit_zero :
    exitStatus (main (rejectingEnv networkError) (.ok [])) = 0 := by
  decide

/-- C4, amended: given zero input records, `main` returns at once, before any
transport handle is built or any request is sent and without writing a result
file; the process then ends with exit status 0, whereas a file that cannot be
read or parsed ends it with exit status 1. -/
theorem main_zero_records (env : Env) :
    main env (.ok []) = .returnedNoRecords [] ∧
    transportActions (main env (.ok [])) = 0 ∧
    (writtenRows (main env (.ok []))).isNone = true ∧
    exitStatus (main env (.ok [])) = 0 ∧
    ∀ message : String, exitStatus (main env (.error message)) = 1 :=
  ⟨rfl, rfl, rfl, rfl, fun _ => rfl⟩

/-- C5: for every run over `N ≥ 1` records in which each record obtains its
transport handle, and every sequence of request outcomes, at completion
`successCount + failCount = N = totalAddresses`; and each iteration of the loop
increments exactly one of the two counters, by one. -/
theorem main_counters_sum (env : Env) (records : List Record) (hne : records ≠ [])
    (hctor : ∀ r ∈ records, ∃ rm, env.newRequestManager r.proxy = .ok rm) :
    (∃ stats results summary effects,
      main env (.ok records) = .completed stats results summary effects ∧
      stats.successCount + stats.failCount = records.length ∧
      stats.totalAddresses = records.length) ∧
    ∀ (i : Nat) (record : Record) (st : RunState), record ∈ records →
      ∃ st2, processRecord env i record st = .ok st2 ∧
        ((st2.stats.successCount = st.stats.successCount + 1 ∧
            st2.stats.failCount = st.stats.failCount) ∨
         (st2.stats.successCount = st.stats.successCount ∧
            st2.stats.failCount = st.stats.failCount + 1)) := by
  constructor
  · obtain ⟨stats, results, summary, effects, hmain⟩ := main_completed env records hne hctor
    obtain ⟨-, -, htot, -, hsum, -⟩ :=
      main_completed_inv env records stats results summary effects hmain
    exact ⟨stats, results, summary, effects, hmain, hsum, htot⟩
  · intro i record st hmem
    obtain ⟨rm, hrm⟩ := hctor record hmem
    obtain ⟨st2, h1⟩ := processRecord_ok_of_built env i record st rm hrm
    obtain ⟨-, row, -, -, hcase⟩ := processRecord_ok_inv env i record st st2 h1
    refine ⟨st2, h1, ?_⟩
    rcases hcase with ⟨-, c1, c2, -⟩ | ⟨-, c1, c2, -⟩
    · exact Or.inl ⟨c1, c2⟩
    · exact Or.inr ⟨c1, c2⟩

/-- Witness for C5: two records, both rejected with status 429. -/
theorem main_counters_sum_witness :
    (∃ stats results summary effects,
      main (rejectingEnv (httpError 429 none))
        (.ok [sampleRecord "1" "0xab" "", sampleRecord "2" "0xcd" ""])
        = .completed stats results summary effects ∧
      stats.successCount + stats.failCount =
        [sampleRecord "1" "0xab" "", sampleRecord "2" "0xcd" ""].length ∧
      stats.totalAddresses = [sampleRecord "1" "0xab" "", sampleRecord "2" "0xcd" ""].length) ∧
    ∀ (i : Nat) (record : Record) (st : RunState),
      record ∈ [sampleRecord "1" "0xab" "", sampleRecord "2" "0xcd" ""] →
      ∃ st2, processRecord (rejectingEnv (httpError 429 none)) i record st = .ok st2 ∧
        ((st2.stats.successCount = st.stats.successCount + 1 ∧
            st2.stats.failCount = st.stats.failCount) ∨
         (st2.stats.successCount = st.stats.successCount ∧
            st2.stats.failCount = st.stats.failCount + 1)) :=
  main_counters_sum _ _ (by decide) (fun r _ => ⟨{ proxy := r.proxy }, rfl⟩)

/-- C10: in every completed run in which at least one record succeeds and every
successful record has an integer raw amount, `totalAmount` is the sum, taken
in record order from `0`, of the raw amounts each divided by 1,000,000
(`parseInt(raw) / 1000000`, in Number arithmetic); the minimum is the smallest
and the maximum the largest of these formatted amounts; and the average is
`totalAmount` divided by the number of successes. For two successes with raw
amounts `1000000` and `2500000` the total is 3.5, the minimum 1, the maximum
2.5 and the average 1.75, exactly. -/
theorem main_statistics (env : Env) (records : List Record) (stats : Stats)
    (results : List ResultRow) (summary : Summary) (effects : List Effect)
    (hrun : main env (.ok records) = .completed stats results summary effects)
    (hsome : successRaws results ≠ [])
    (hint : ∀ raw ∈ successRaws results, isIntegerAmount raw = true) :
    (∀ raw ∈ successRaws results, ∃ x : JSNumber, parseInt raw = .ok x ∧ x ≠ .nan ∧
      formatAmount raw = x.div (JSNumber.ofNat 1000000)) ∧
    stats.totalAmount =
      ((successRaws results).map formatAmount).foldl JSNumber.add (JSNumber.ofNat 0) ∧
    (summary.minAmount ∈ (successRaws results).map formatAmount ∧
      ∀ a ∈ (successRaws results).map formatAmount, summary.minAmount.le a = true) ∧
    (summary.maxAmount ∈ (successRaws results).map formatAmount ∧
      ∀ a ∈ (successRaws results).map formatAmount, a.le summary.maxAmount = true) ∧
    stats.successCount = (successRaws results).length ∧
    summary.avgAmount = stats.totalAmount.div (JSNumber.ofNat stats.successCount) ∧
    (successRaws results = [some (.str "1000000"), some (.str "2500000")] →
      stats.totalAmount.hasValue false 7 2 = true ∧
      summary.minAmount.hasValue false 1 1 = true ∧
      summary.maxAmount.hasValue false 5 2 = true ∧
      summary.avgAmount.hasValue false 7 4 = true) := by
  obtain ⟨-, -, -, hcount, -, -, htotal, hsummary⟩ :=
    main_completed_inv env records stats results summary effects hrun
  have hamounts : successAmounts results = (successRaws results).map formatAmount := rfl
  rw [hamounts] at htotal hsummary
  have hnan : ∀ a ∈ (successRaws results).map formatAmount, a ≠ .nan := by
    intro a ha
    obtain ⟨raw, hraw, rfl⟩ := List.mem_map.1 ha
    obtain ⟨x, -, -, -, h⟩ := formatAmount_integer raw (hint raw hraw)
    exact h
  have hne : (successRaws results).map formatAmount ≠ [] := by
    intro h
    exact hsome (List.map_eq_nil_iff.1 h)
  have hsortne : sortByDifference ((successRaws results).map formatAmount) ≠ [] := by
    intro h
    have hl := length_sortByDifference ((successRaws results).map formatAmount)
    rw [h] at hl
    exact hne (List.length_eq_zero.1 hl.symm)
  have hsortnan : ∀ a ∈ sortByDifference ((successRaws results).map formatAmount), a ≠ .nan :=
    fun a ha => hnan a ((mem_sortByDifference a _).1 ha)
  have hsorted := pairwise_sortByDifference _ hnan
  have hpos : (sortByDifference ((successRaws results).map formatAmount)).length > 0 :=
    List.length_pos.2 hsortne
  have hmin : summary.minAmount =
      (sortByDifference ((successRaws results).map formatAmount)).headD (JSNumber.ofNat 0) := by
    rw [hsummary]
    simp only [summarize, if_pos hpos]
  have hmax : summary.maxAmount =
      (sortByDifference ((successRaws results).map formatAmount)).getLastD (JSNumber.ofNat 0) := by
    rw [hsummary]
    simp only [summarize, if_pos hpos]
  have havg : summary.avgAmount = stats.totalAmount.div (JSNumber.ofNat stats.successCount) := by
    rw [hsummary]
    simp only [summarize, if_pos hpos]
    rw [length_sortByDifference, List.length_map, hcount]
  refine ⟨?_, htotal, ?_, ?_, hcount, havg, ?_⟩
  · intro raw hraw
    obtain ⟨x, h1, h2, h3, -⟩ := formatAmount_integer raw (hint raw hraw)
    exact ⟨x, h1, h2, h3⟩
  · obtain ⟨h1, h2⟩ := headD_le_of_pairwise _ (JSNumber.ofNat 0) hsortne hsortnan hsorted
    rw [hmin]
    exact ⟨(mem_sortByDifference _ _).1 h1, fun a ha => h2 a ((mem_sortByDifference a _).2 ha)⟩
  · obtain ⟨h1, h2⟩ := getLastD_ge_of_pairwise _ (JSNumber.ofNat 0) hsortne hsortnan hsorted
    rw [hmax]
    exact ⟨(mem_sortByDifference _ _).1 h1, fun a ha => h2 a ((mem_sortByDifference a _).2 ha)⟩
  · intro hex
    rw [hex] at htotal hsummary
    rw [hsummary, htotal]
    decide!

/-- Witness for C10: the run of the example, two records answered with the raw
amounts `1000000` and `2500000`. -/
theorem main_statistics_witness :
    main exampleEnv (.ok exampleRecords)
      = .completed exampleStats exampleRows exampleSummary exampleEffects ∧
    (∀ raw ∈ successRaws exampleRows, ∃ x : JSNumber, parseInt raw = .ok x ∧ x ≠ .nan ∧
      formatAmount raw = x.div (JSNumber.ofNat 1000000)) ∧
    exampleStats.totalAmount =
      ((successRaws exampleRows).map formatAmount).foldl JSNumber.add (JSNumber.ofNat 0) ∧
    (exampleSummary.minAmount ∈ (successRaws exampleRows).map formatAmount ∧
      ∀ a ∈ (successRaws exampleRows).map formatAmount, exampleSummary.minAmount.le a = true) ∧
    (exampleSummary.maxAmount ∈ (successRaws exampleRows).map formatAmount ∧
      ∀ a ∈ (successRaws exampleRows).map formatAmount, a.le exampleSummary.maxAmount = true) ∧
    exampleStats.successCount = (successRaws exampleRows).length ∧
    exampleSummary.avgAmount =
      exampleStats.totalAmount.div (JSNumber.ofNat exampleStats.successCount) ∧
    (successRaws exampleRows = [some (.str "1000000"), some (.str "2500000")] →
      exampleStats.totalAmount.hasValue false 7 2 = true ∧
      exampleSummary.minAmount.hasValue false 1 1 = true ∧
      exampleSummary.maxAmount.hasValue false 5 2 = true ∧
      exampleSummary.avgAmount.hasValue false 7 4 = true) :=
  ⟨by decide!,
   main_statistics exampleEnv exampleRecords exampleStats exampleRows exampleSummary
     exampleEffects (by decide!) (by decide) (by decide)⟩

end Initia
